import Mathlib

/-!
Verification of the command-line parsing subsystem of DiscordStudyBot
(src/commandParsers.py): the quote/escape-aware tokenizer `_tokenize`,
the shared value-consumption helper `_consume_value`, and the seven
per-command grammars (`parse_chat_command`, `parse_music_command`,
`parse_wolfram_command`, `parse_google_command`, `parse_db_command`,
`parse_reminder_command`, `parse_clip_command`).

The Python source is embedded shallowly: strings are Lean `String`s
scanned as their `List Char` of code points (matching Python's
per-code-point indexing), the index-based `while` loops become
fuel-indexed structural recursion over the remaining token list (the
fuel counts loop iterations; every iteration consumes at least one
token, so `tokens.length` iterations always suffice), and Python's
built-in string predicates (`str.isspace`, `str.isdigit`, `str.lower`,
`float(...)`, `int(...)`) are modelled for the ASCII range that all
flag and value syntax in this program uses.
-/

namespace CommandParsers

/-- Python `str.isspace` / the whitespace stripped by `str.strip()` and
split on by `str.split()`, restricted to the ASCII range (the Unicode
whitespace code points behave identically for this program's inputs). -/
def pyIsSpace (c : Char) : Bool :=
  c = ' ' ∨ c = '\t' ∨ c = '\n' ∨ c = '\x0d' ∨ c = '\x0b' ∨ c = '\x0c'

/-- Leading and trailing whitespace removal on a character list. -/
def stripChars (cs : List Char) : List Char :=
  ((cs.dropWhile pyIsSpace).reverse.dropWhile pyIsSpace).reverse

/-- Python `str.strip()` (no argument form). -/
def pyStrip (s : String) : String := ⟨stripChars s.data⟩

/-- Python slicing `s[n:]` by code points. -/
def strDrop (s : String) (n : Nat) : String := ⟨s.data.drop n⟩

/-- Whether `p` is a prefix of the character list `s`. -/
def listPfx : List Char → List Char → Bool
  | [], _ => true
  | _ :: _, [] => false
  | c :: cs, d :: ds => c = d && listPfx cs ds

/-- Python `s.startswith(p)`. -/
def pyStartsW (s p : String) : Bool := listPfx p.data s.data

/-- ASCII lower-casing of one character. -/
def asciiLower (c : Char) : Char :=
  if 'A' ≤ c ∧ c ≤ 'Z' then Char.ofNat (c.toNat + 32) else c

/-- Python `str.lower()` (ASCII model). -/
def pyLower (s : String) : String := ⟨s.data.map asciiLower⟩

/-- Python `str.isdigit()`: non-empty and every character a digit
(ASCII model of the Unicode digit classes). -/
def pyStrIsDigit (s : String) : Bool :=
  !s.data.isEmpty && s.data.all Char.isDigit

/-- Helper for Python `str.split()`: words separated by whitespace runs,
accumulating the current word reversed. -/
def splitWsAux : List Char → List Char → List String
  | [], acc => if acc.isEmpty then [] else [⟨acc.reverse⟩]
  | c :: cs, acc =>
      if pyIsSpace c then
        if acc.isEmpty then splitWsAux cs []
        else ⟨acc.reverse⟩ :: splitWsAux cs []
      else splitWsAux cs (c :: acc)

/-- Python `s.split()` (no-argument whitespace split, no empty words). -/
def pySplitWs (s : String) : List String := splitWsAux s.data []

/-- Python `s.split(None, 1)`: at most one split; the remainder keeps its
own trailing whitespace but not the separator run. -/
def pySplit1 (s : String) : List String :=
  let cs := s.data.dropWhile pyIsSpace
  let w := cs.takeWhile (fun c => !pyIsSpace c)
  let rest := (cs.dropWhile (fun c => !pyIsSpace c)).dropWhile pyIsSpace
  if w.isEmpty then [] else if rest.isEmpty then [⟨w⟩] else [⟨w⟩, ⟨rest⟩]

/-- Continuation of a digit run for Python numeric literals: consumes
further digits, allowing a single underscore only between two digits,
and returns the unconsumed remainder. -/
def digRunTail : List Char → List Char
  | [] => []
  | c :: cs =>
      if c.isDigit then digRunTail cs
      else if c = '_' then
        match cs with
        | d :: cs2 => if d.isDigit then digRunTail cs2 else c :: d :: cs2
        | [] => [c]
      else c :: cs

/-- A Python digit run: at least one digit, underscores only between
digits; `none` when the input does not start with a digit, otherwise
the remainder after the run. -/
def digRun : List Char → Option (List Char)
  | [] => none
  | c :: cs => if c.isDigit then some (digRunTail cs) else none

/-- The optional exponent part of a Python float literal, which must end
the input: `e`/`E`, an optional sign, and a digit run. -/
def floatExp : List Char → Bool
  | [] => true
  | c :: cs =>
      if c = 'e' ∨ c = 'E' then
        let cs2 := match cs with
                   | s :: cs3 => if s = '+' ∨ s = '-' then cs3 else s :: cs3
                   | [] => []
        match digRun cs2 with
        | some [] => true
        | _ => false
      else false

/-- The unsigned numeric part of a Python float literal:
`digits [. [digits]] [exp]` or `. digits [exp]`. -/
def floatNumber (cs : List Char) : Bool :=
  match digRun cs with
  | some rest =>
      match rest with
      | '.' :: rest2 =>
          (match digRun rest2 with
           | some rest3 => floatExp rest3
           | none => floatExp rest2)
      | _ => floatExp rest
  | none =>
      match cs with
      | '.' :: rest2 =>
          (match digRun rest2 with
           | some rest3 => floatExp rest3
           | none => false)
      | _ => false

/-- The body of a Python float literal after the optional sign:
`inf`, `infinity`, `nan` (case-insensitive) or a number. -/
def floatBody (cs : List Char) : Bool :=
  let low := cs.map asciiLower
  if low = "inf".data ∨ low = "infinity".data ∨ low = "nan".data then true
  else floatNumber cs

/-- Whether Python `float(s)` succeeds (raises no `ValueError`):
surrounding whitespace, an optional sign, then a float body. -/
def pyFloatValid (s : String) : Bool :=
  match stripChars s.data with
  | '+' :: rest => floatBody rest
  | '-' :: rest => floatBody rest
  | rest => floatBody rest

/-- Value of a complete digit run (underscores between digits), `none`
when the characters are not exactly such a run. -/
def natRunAux : List Char → Nat → Option Nat
  | [], acc => some acc
  | c :: cs, acc =>
      if c.isDigit then natRunAux cs (acc * 10 + (c.toNat - '0'.toNat))
      else if c = '_' then
        match cs with
        | d :: cs2 =>
            if d.isDigit then natRunAux cs2 (acc * 10 + (d.toNat - '0'.toNat))
            else none
        | [] => none
      else none

/-- A complete unsigned Python int literal (base 10) and its value. -/
def natRun : List Char → Option Nat
  | [] => none
  | c :: cs =>
      if c.isDigit then natRunAux cs (c.toNat - '0'.toNat) else none

/-- Python `int(s)` (base 10): `none` models a `ValueError`. -/
def pyInt (s : String) : Option Int :=
  match stripChars s.data with
  | '+' :: rest => (natRun rest).map (fun n => (n : Int))
  | '-' :: rest => (natRun rest).map (fun n => -(n : Int))
  | rest => (natRun rest).map (fun n => (n : Int))

/-- The apostrophe character, used by the tokenizer's quote handling. -/
def squote : Char := Char.ofNat 39

/-! ## The tokenizer (`_tokenize`, src/commandParsers.py lines 46-124) -/

/-- The scanning loop of `_tokenize`: remaining characters, the
`current_token` buffer, the `in_quotes` flag and the `quote_char`
variable.  Each Python iteration advances `i` by one or (for a
completed escape) two positions, which is the structural recursion
below. -/
def tokenizeAux : List Char → String → Bool → Option Char → List String
  | [], cur, _, _ =>
      -- add final token: `if current_token: tokens.append(current_token)`
      if cur = "" then [] else [cur]
  | '\\' :: c2 :: rest, cur, true, qc =>
      -- escape only inside quotes with a next character in `"` `'` `\`
      if c2 = '"' ∨ c2 = squote ∨ c2 = '\\' then
        tokenizeAux rest (cur.push c2) true qc
      else
        -- not an escape: the backslash is neither a quote nor whitespace,
        -- so the loop's final clause appends it literally and advances one
        tokenizeAux (c2 :: rest) (cur.push '\\') true qc
  | c :: rest, cur, inQ, qc =>
      if c = '"' ∨ c = squote then
        if !inQ then
          -- start of quoted string: not appended to the buffer
          tokenizeAux rest cur true (some c)
        else if some c = qc then
          -- end of quoted string; the source's guard
          -- `if current_token or current_token == ''` always holds,
          -- so the buffer is flushed even when empty
          cur :: tokenizeAux rest "" false none
        else
          -- different quote type inside a quoted string: literal
          tokenizeAux rest (cur.push c) inQ qc
      else if pyIsSpace c ∧ !inQ then
        if cur = "" then tokenizeAux rest cur inQ qc
        else cur :: tokenizeAux rest "" inQ qc
      else
        tokenizeAux rest (cur.push c) inQ qc

/-- `_tokenize(text)`. -/
def tokenize (text : String) : List String :=
  tokenizeAux text.data "" false none

/-- The tokenizer as the specification document words it (section 4.1):
a single left-to-right scan maintaining an output token list, a
current-token buffer and the active quote character (present exactly
while inside a quoted region), with the backslash rule, the
open/close/mixed quote rules, the whitespace separator rule, the
default append rule, and the end-of-input flush of a non-empty buffer.
Written from the spec's words, to be compared with `tokenize`. -/
def specScan : List Char → List String → String → Option Char → List String
  | [], out, buf, _ => if buf = "" then out else out ++ [buf]
  | '\\' :: c2 :: rest, out, buf, some q =>
      if c2 = '"' ∨ c2 = squote ∨ c2 = '\\' then
        specScan rest out (buf.push c2) (some q)
      else
        specScan (c2 :: rest) out (buf.push '\\') (some q)
  | c :: rest, out, buf, state =>
      if c = '"' ∨ c = squote then
        match state with
        | none => specScan rest out buf (some c)
        | some q =>
            if c = q then specScan rest (out ++ [buf]) "" none
            else specScan rest out (buf.push c) (some q)
      else if state = none ∧ pyIsSpace c then
        if buf = "" then specScan rest out buf state
        else specScan rest (out ++ [buf]) "" state
      else specScan rest out (buf.push c) state

/-- Tokenization as described by the spec, from the initial state. -/
def tokenizeSpec (text : String) : List String :=
  specScan text.data [] "" none

/-! ## The value-consumption helper (`_consume_value`, lines 9-44) -/

/-- The flag test used by `_consume_value` (line 35) and by
`parse_music_command`'s URL collection (line 382):
`token.startswith('-') and len(token) > 1 and not token[1].isdigit()`. -/
def isFlagLike (s : String) : Bool :=
  match s.data with
  | '-' :: c :: _ => !c.isDigit
  | _ => false

/-- Python `' '.join(values)`. -/
def joinSpace : List String → String
  | [] => ""
  | [v] => v
  | v :: vs => v ++ " " ++ joinSpace vs

/-- The collection loop of `_consume_value`: walks the tokens from the
start index, stopping at the first flag-like token, and returns the
collected values together with the `consumed` counter, which starts at
1 and after appending the token at offset `j` equals `j + 2` — i.e.
one more than the number of values collected so far. -/
def consumeRun : List String → List String × Nat
  | [] => ([], 1)
  | t :: rest =>
      if isFlagLike t then ([], 1)
      else
        let (vs, c) := consumeRun rest
        (t :: vs, c + 1)

/-- `_consume_value(tokens, start_idx)`. -/
def consume_value (tokens : List String) (startIdx : Nat) : Option String × Nat :=
  if tokens.length ≤ startIdx then (none, 1)
  else
    let (vs, c) := consumeRun (tokens.drop startIdx)
    if vs.isEmpty then (none, 1) else (some (joinSpace vs), c)

/-! ## Generic fuel-indexed grammar loop

Every grammar's `while i < len(tokens)` loop dispatches on `tokens[i]`
and advances `i` by at least one.  `step t rest cmd` handles the token
`t = tokens[i]` given the following tokens `rest = tokens[i+1:]` and
returns the tokens the loop continues from together with the updated
command.  The fuel counts loop iterations; since every iteration
consumes at least one token, `tokens.length` iterations always finish
the loop. -/

/-- Run a grammar's token loop with the given iteration fuel. -/
def runF {C : Type} (step : String → List String → C → List String × C) :
    Nat → List String → C → C
  | 0, _, st => st
  | _ + 1, [], st => st
  | n + 1, t :: rest, st => runF step n (step t rest st).1 (step t rest st).2

/-- The Python idiom `value, consumed = _consume_value(tokens, i + 1);
if value: ... else: ...` — `rest` is `tokens[i+1:]`, so the call is
`consume_value rest 0`; the `else` branch also catches a truthy test on
an empty string value. -/
def consumeStep {C : Type} (rest : List String)
    (ok : String → Nat → List String × C) (err : List String × C) :
    List String × C :=
  match consume_value rest 0 with
  | (some v, c) => if v = "" then err else ok v c
  | (none, _) => err

/-- The shared shape of a simple value flag branch (`--llm`, `--model`,
`--send`, `--query`, `--search`, `--message`): consume a value, store
it with `set` and advance by the consumed count, or append the flag's
"requires a value" error and advance by one. -/
def simpleValueStep {C : Type} (rest : List String)
    (set : String → C) (errcmd : C) : List String × C :=
  consumeStep rest (fun v c => (rest.drop (c - 1), set v)) (rest, errcmd)

/-- The shared shape of a `parse_clip_command` value flag branch
(`--url`, `--start`, `--end`, `--resolution`, `--bitrate`, `--format`):
take exactly the next token, or append the flag's error. -/
def clipValueStep {C : Type} (rest : List String)
    (set : String → C) (errcmd : C) : List String × C :=
  match rest with
  | v :: rest2 => (rest2, set v)
  | [] => ([], errcmd)

/-- The shared shape of a `parse_clip_command` numeric flag branch
(`--fps`, `--clip`, `--skip`): take the next token and `int()` it; on
`ValueError` append the flag's number error and advance only past the
flag itself, so the value token is seen again by the loop. -/
def clipIntStep {C : Type} (rest : List String)
    (set : Int → C) (errnum : C) (errmissing : C) : List String × C :=
  match rest with
  | v :: rest2 =>
      (match pyInt v with
       | some n => (rest2, set n)
       | none => (v :: rest2, errnum))
  | [] => ([], errmissing)

/-! ## Chat command (`ChatCommand`, `parse_chat_command`, lines 128-288) -/

structure ChatCommand where
  llm : Option String := none
  model : Option String := none
  prompt_action : Option String := none
  prompt_value : Option String := none
  message : Option String := none
  show_models : Bool := false
  show_status : Bool := false
  clear_history : Bool := false
  listen_mode : Option String := none
  errors : List String := []
deriving DecidableEq

/-- `ChatCommand.has_action`. -/
def ChatCommand.has_action (c : ChatCommand) : Bool :=
  c.llm.isSome || c.model.isSome || c.prompt_action.isSome ||
  c.message.isSome || c.show_models || c.show_status ||
  c.clear_history || c.listen_mode.isSome

/-- The `--prompt`/`-p` branch of `parse_chat_command`: the action is
`list`/`show`, `set` (which chains a second value consumption starting
where the first ended, advancing by `consumed + text_consumed - 1`), a
digit string, or invalid. -/
def chatPromptStep (rest : List String) (cmd : ChatCommand) :
    List String × ChatCommand :=
  consumeStep rest
    (fun v c =>
      if v = "list" ∨ v = "show" then
        (rest.drop (c - 1), { cmd with prompt_action := some v })
      else if v = "set" then
        match consume_value (rest.drop (c - 1)) 0 with
        | (some v2, c2) =>
            if v2 = "" then
              (rest.drop (c - 1), { cmd with errors :=
                cmd.errors ++ ["--prompt set requires prompt text"] })
            else
              ((rest.drop (c - 1)).drop (c2 - 1),
               { cmd with prompt_action := some "set", prompt_value := some v2 })
        | (none, _) =>
            (rest.drop (c - 1), { cmd with errors :=
              cmd.errors ++ ["--prompt set requires prompt text"] })
      else if pyStrIsDigit v then
        (rest.drop (c - 1), { cmd with prompt_action := some v })
      else
        (rest.drop (c - 1), { cmd with errors :=
          cmd.errors ++ ["Invalid prompt action: " ++ v] }))
    (rest, { cmd with errors :=
      cmd.errors ++ ["--prompt requires an action (list/show/set/0-3)"] })

/-- The `--listen` branch of `parse_chat_command`: the consumed value
must lower-case to `on` or `off`; otherwise the error is appended and
the loop advances by one only. -/
def chatListenStep (rest : List String) (cmd : ChatCommand) :
    List String × ChatCommand :=
  match consume_value rest 0 with
  | (some v, c) =>
      if v ≠ "" ∧ (pyLower v = "on" ∨ pyLower v = "off") then
        (rest.drop (c - 1), { cmd with listen_mode := some (pyLower v) })
      else
        (rest, { cmd with errors :=
          cmd.errors ++ ["--listen requires 'on' or 'off'"] })
  | (none, _) =>
      (rest, { cmd with errors :=
        cmd.errors ++ ["--listen requires 'on' or 'off'"] })

/-- One iteration of `parse_chat_command`'s token loop. -/
def stepChat (t : String) (rest : List String) (cmd : ChatCommand) :
    List String × ChatCommand :=
  if t = "--llm" ∨ t = "-l" then
    simpleValueStep rest (fun v => { cmd with llm := some (pyLower v) })
      { cmd with errors :=
        cmd.errors ++ ["--llm requires a value (chatgpt/gemini/deepseek)"] }
  else if t = "--model" ∨ t = "-m" then
    simpleValueStep rest (fun v => { cmd with model := some v })
      { cmd with errors := cmd.errors ++ ["--model requires a model name"] }
  else if t = "--prompt" ∨ t = "-p" then
    chatPromptStep rest cmd
  else if t = "--send" ∨ t = "-s" then
    simpleValueStep rest (fun v => { cmd with message := some v })
      { cmd with errors := cmd.errors ++ ["--send requires a message"] }
  else if t = "--models" then
    (rest, { cmd with show_models := true })
  else if t = "--status" ∨ t = "-st" then
    (rest, { cmd with show_status := true })
  else if t = "--clear" ∨ t = "-c" then
    (rest, { cmd with clear_history := true })
  else if t = "--listen" then
    chatListenStep rest cmd
  else
    (rest, { cmd with errors := cmd.errors ++ ["Unknown flag: " ++ t] })

/-- The chat grammar's token loop from a given state. -/
def chatLoop (ts : List String) (cmd : ChatCommand) : ChatCommand :=
  runF stepChat ts.length ts cmd

/-- `parse_chat_command(command_text)`. -/
def parse_chat_command (command_text : String) : ChatCommand :=
  let text0 := pyStrip command_text
  let text := if pyStartsW text0 "$chat" then pyStrip (strDrop text0 5) else text0
  if text = "" then { show_status := true }
  else
    let cmd := chatLoop (tokenize text) {}
    if cmd.has_action then cmd else { cmd with show_status := true }

/-! ## Music command (`MusicCommand`, `parse_music_command`, lines 292-395) -/

structure MusicCommand where
  action : Option String := none
  youtube_urls : List String := []
  queue_only : Bool := false
  errors : List String := []
deriving DecidableEq

/-- The inner `while` of the `--youtube` branch: consume all following
tokens until one looks like another flag; returns the collected URLs
and the point where the outer loop resumes. -/
def collectUrls : List String → List String × List String
  | [] => ([], [])
  | t :: rest =>
      if isFlagLike t then ([], t :: rest)
      else
        let (us, r) := collectUrls rest
        (t :: us, r)

/-- The `--youtube`/`-y` branch of `parse_music_command`: set the
action, collect all following non-flag tokens as URLs, and complain
only when the whole accumulated URL list (`if not cmd.youtube_urls:`)
is still empty. -/
def musicYoutubeStep (rest : List String) (cmd : MusicCommand) :
    List String × MusicCommand :=
  let (us, r) := collectUrls rest
  let cmd2 := { cmd with action := some "youtube",
                         youtube_urls := cmd.youtube_urls ++ us }
  (r, if cmd2.youtube_urls.isEmpty then
        { cmd2 with errors := cmd2.errors ++ ["--youtube requires at least one URL"] }
      else cmd2)

/-- One iteration of `parse_music_command`'s token loop. -/
def stepMusic (t : String) (rest : List String) (cmd : MusicCommand) :
    List String × MusicCommand :=
  if t = "--init" ∨ t = "--initialize" ∨ t = "-i" then
    (rest, { cmd with action := some "init" })
  else if t = "--play" ∨ t = "-p" then
    (rest, { cmd with action := some "play" })
  else if t = "--pause" then
    (rest, { cmd with action := some "pause" })
  else if t = "--stop" ∨ t = "-s" then
    (rest, { cmd with action := some "stop" })
  else if t = "--next" ∨ t = "-n" then
    (rest, { cmd with action := some "next" })
  else if t = "--prev" ∨ t = "--previous" then
    (rest, { cmd with action := some "prev" })
  else if t = "--name" then
    (rest, { cmd with action := some "name" })
  else if t = "--youtube" ∨ t = "-y" then
    musicYoutubeStep rest cmd
  else if t = "--queue" ∨ t = "--add-next" then
    (rest, { cmd with queue_only := true })
  else
    (rest, { cmd with errors := cmd.errors ++ ["Unknown flag: " ++ t] })

/-- The music grammar's token loop from a given state. -/
def musicLoop (ts : List String) (cmd : MusicCommand) : MusicCommand :=
  runF stepMusic ts.length ts cmd

/-- The legacy action alias table of `parse_music_command`
(`action_map.get(word, word)`). -/
def musicActionMap (w : String) : String :=
  (([("initialize", "init"), ("play", "play"), ("pause", "pause"),
     ("stop", "stop"), ("next", "next"), ("previous", "prev"),
     ("name", "name"), ("playTest", "playTest")] : List (String × String)).lookup w).getD w

/-- `parse_music_command(command_text)`. -/
def parse_music_command (command_text : String) : MusicCommand :=
  let text0 := pyStrip command_text
  let text := if pyStartsW text0 "$music" then pyStrip (strDrop text0 6) else text0
  if text ≠ "" ∧ ¬ pyStartsW text "-" then
    -- legacy form: the first whitespace word names the action;
    -- `text.split()` is non-empty because `text` is stripped and non-empty
    { action := some (musicActionMap ((pySplitWs text).headD "")) }
  else if text = "" then { errors := ["No action specified"] }
  else musicLoop (tokenize text) {}

/-! ## Search commands (`SearchCommand`, lines 399-496) -/

structure SearchCommand where
  query : Option String := none
  errors : List String := []
deriving DecidableEq

/-- One iteration of `parse_wolfram_command`'s token loop. -/
def stepWolfram (t : String) (rest : List String) (cmd : SearchCommand) :
    List String × SearchCommand :=
  if t = "--query" ∨ t = "-q" then
    simpleValueStep rest (fun v => { cmd with query := some v })
      { cmd with errors := cmd.errors ++ ["--query requires a search term"] }
  else
    (rest, { cmd with errors := cmd.errors ++ ["Unknown flag: " ++ t] })

/-- The wolfram grammar's token loop from a given state. -/
def wolframLoop (ts : List String) (cmd : SearchCommand) : SearchCommand :=
  runF stepWolfram ts.length ts cmd

/-- `parse_wolfram_command(command_text)`. -/
def parse_wolfram_command (command_text : String) : SearchCommand :=
  let text0 := pyStrip command_text
  let text := if pyStartsW text0 "$wolfram" then pyStrip (strDrop text0 8) else text0
  if text = "" then { errors := ["No query provided"] }
  else if ¬ pyStartsW text "-" then { query := some text }
  else wolframLoop (tokenize text) {}

/-- One iteration of `parse_google_command`'s token loop. -/
def stepGoogle (t : String) (rest : List String) (cmd : SearchCommand) :
    List String × SearchCommand :=
  if t = "--search" ∨ t = "-s" ∨ t = "--query" ∨ t = "-q" then
    simpleValueStep rest (fun v => { cmd with query := some v })
      { cmd with errors := cmd.errors ++ ["--search requires a query"] }
  else
    (rest, { cmd with errors := cmd.errors ++ ["Unknown flag: " ++ t] })

/-- The google grammar's token loop from a given state. -/
def googleLoop (ts : List String) (cmd : SearchCommand) : SearchCommand :=
  runF stepGoogle ts.length ts cmd

/-- `parse_google_command(command_text)`. -/
def parse_google_command (command_text : String) : SearchCommand :=
  let text0 := pyStrip command_text
  let text := if pyStartsW text0 "$google" then pyStrip (strDrop text0 7) else text0
  if text = "" then { errors := ["No query provided"] }
  else if ¬ pyStartsW text "-" then { query := some text }
  else googleLoop (tokenize text) {}

/-! ## Database command (`DbCommand`, `parse_db_command`, lines 500-553) -/

structure DbCommand where
  action : Option String := none
  errors : List String := []
deriving DecidableEq

/-- The body of `parse_db_command`'s `for token in tokens` loop. -/
def dbStep (cmd : DbCommand) (t : String) : DbCommand :=
  if t = "--stats" ∨ t = "-s" then { cmd with action := some "stats" }
  else if t = "--export" ∨ t = "-e" then { cmd with action := some "export" }
  else if t = "--import" ∨ t = "-i" then { cmd with action := some "import" }
  else { cmd with errors := cmd.errors ++ ["Unknown flag: " ++ t] }

/-- `parse_db_command(command_text)`. -/
def parse_db_command (command_text : String) : DbCommand :=
  let text0 := pyStrip command_text
  if text0 = "$dbStats" then { action := some "stats" }
  else if text0 = "$dbExport" then { action := some "export" }
  else if text0 = "$dbImport" then { action := some "import" }
  else
    let text := if pyStartsW text0 "$db" then pyStrip (strDrop text0 3) else text0
    if text = "" then { errors := ["No action specified"] }
    else (tokenize text).foldl dbStep {}

/-! ## Reminder command (`ReminderCommand`, `parse_reminder_command`, lines 557-626)

`parse_reminder_command` can raise: in the `--time` branch the source
evaluates `float(value.split()[0])` inside `try/except ValueError`, and
when the space-joined value is whitespace-only (truthy, but with an
empty `split()`), the subscript raises an uncaught `IndexError`.  The
loop state therefore carries an `exn` flag (an absorbing state: a
raised exception aborts the rest of the loop), and the parse function
returns `Except`.  The `minutes` field models the source's float field:
`none` is the initial `5.0`, `some w` records the literal accepted by
`float()`. -/

inductive PyError where
  | indexError
deriving DecidableEq

structure ReminderCommand where
  minutes : Option String := none
  message : Option String := none
  errors : List String := []
deriving DecidableEq

instance : DecidableEq (Except PyError ReminderCommand) := fun x y =>
  match x, y with
  | .ok a, .ok b =>
      if h : a = b then .isTrue (by rw [h]) else .isFalse (fun hh => h (Except.ok.inj hh))
  | .error a, .error b =>
      if h : a = b then .isTrue (by rw [h]) else .isFalse (fun hh => h (Except.error.inj hh))
  | .ok _, .error _ => .isFalse (fun hh => Except.noConfusion hh)
  | .error _, .ok _ => .isFalse (fun hh => Except.noConfusion hh)

structure RemState where
  minutes : Option String := none
  message : Option String := none
  errors : List String := []
  exn : Bool := false
deriving DecidableEq

/-- The `--time`/`-t` branch of `parse_reminder_command`: the source
runs `float(value.split()[0])` under `except ValueError`; an empty
`split()` (whitespace-only value) raises an uncaught `IndexError`,
modelled by the absorbing `exn` flag. -/
def remTimeStep (rest : List String) (st : RemState) :
    List String × RemState :=
  consumeStep rest
    (fun v c =>
      match pySplitWs v with
      | [] => (rest.drop (c - 1), { st with exn := true })
      | w :: _ =>
          if pyFloatValid w then
            (rest.drop (c - 1), { st with minutes := some w })
          else
            (rest.drop (c - 1), { st with errors :=
              st.errors ++ ["--time requires a number"] }))
    (rest, { st with errors := st.errors ++ ["--time requires a value"] })

/-- One iteration of `parse_reminder_command`'s token loop. -/
def stepRem (t : String) (rest : List String) (st : RemState) :
    List String × RemState :=
  if st.exn then (rest, st)
  else if t = "--time" ∨ t = "-t" then
    remTimeStep rest st
  else if t = "--message" ∨ t = "-m" then
    simpleValueStep rest (fun v => { st with message := some v })
      { st with errors := st.errors ++ ["--message requires text"] }
  else
    (rest, { st with errors := st.errors ++ ["Unknown flag: " ++ t] })

/-- The reminder grammar's token loop from a given state. -/
def remLoop (ts : List String) (st : RemState) : RemState :=
  runF stepRem ts.length ts st

/-- `parse_reminder_command(command_text)`. -/
def parse_reminder_command (command_text : String) : Except PyError ReminderCommand :=
  let text0 := pyStrip command_text
  let text := if pyStartsW text0 "$remindMeIn" then pyStrip (strDrop text0 11) else text0
  if text = "" then .ok {}
  else if ¬ pyStartsW text "-" then
    -- legacy form `$remindMeIn 5 message here`; `parts[0]` cannot fault
    -- because `text` is stripped and non-empty, but the subscript is
    -- modelled faithfully all the same
    match pySplit1 text with
    | [] => .error .indexError
    | [p0] =>
        if pyFloatValid p0 then .ok { minutes := some p0 }
        else .ok { errors := ["Invalid time format"] }
    | p0 :: p1 :: _ =>
        if pyFloatValid p0 then .ok { minutes := some p0, message := some p1 }
        else .ok { errors := ["Invalid time format"] }
  else
    let st := remLoop (tokenize text) {}
    if st.exn then .error .indexError
    else .ok { minutes := st.minutes, message := st.message, errors := st.errors }

/-! ## Clip command (`ClipCommand`, `parse_clip_command`, lines 630-790) -/

structure ClipCommand where
  urls : List String := []
  starts : List String := []
  ends : List String := []
  resolution : Option String := none
  fps : Option Int := none
  bitrate : Option String := none
  output_format : Option String := none
  force : Bool := false
  confirm : Bool := false
  cancel : Bool := false
  clip_index : Option Int := none
  skip_indices : List Int := []
  errors : List String := []
deriving DecidableEq

/-- The alias dispatch of `parse_clip_command`'s `if/elif` chain: which
branch the token `t` selects. -/
inductive ClipFlag where
  | url | start | stop | resolution | fps | bitrate | fmt
  | force | confirm | cancel | clipIdx | skipIdx | unknown
deriving DecidableEq

/-- Map a token to the `parse_clip_command` branch it selects, in the
source's test order (`--end`/`-e` is the `stop` tag, `--format`/`-f`
the `fmt` tag). -/
def clipFlagOf (t : String) : ClipFlag :=
  if t = "--url" ∨ t = "-u" then .url
  else if t = "--start" ∨ t = "-s" then .start
  else if t = "--end" ∨ t = "-e" then .stop
  else if t = "--resolution" ∨ t = "-r" then .resolution
  else if t = "--fps" then .fps
  else if t = "--bitrate" ∨ t = "-b" then .bitrate
  else if t = "--format" ∨ t = "-f" then .fmt
  else if t = "--force" then .force
  else if t = "--confirm" then .confirm
  else if t = "--cancel" then .cancel
  else if t = "--clip" then .clipIdx
  else if t = "--skip" then .skipIdx
  else .unknown

/-- One iteration of `parse_clip_command`'s token loop.  Value flags
take exactly `tokens[i + 1]` (no `_consume_value` call); a numeric flag
whose value fails `int()` advances by one only, leaving the value token
to be re-processed. -/
def stepClip (t : String) (rest : List String) (cmd : ClipCommand) :
    List String × ClipCommand :=
  match clipFlagOf t with
  | .url =>
      clipValueStep rest (fun v => { cmd with urls := cmd.urls ++ [v] })
        { cmd with errors := cmd.errors ++ ["--url requires a URL"] }
  | .start =>
      clipValueStep rest (fun v => { cmd with starts := cmd.starts ++ [v] })
        { cmd with errors := cmd.errors ++ ["--start requires a time value"] }
  | .stop =>
      clipValueStep rest (fun v => { cmd with ends := cmd.ends ++ [v] })
        { cmd with errors := cmd.errors ++ ["--end requires a time value"] }
  | .resolution =>
      clipValueStep rest (fun v => { cmd with resolution := some v })
        { cmd with errors := cmd.errors ++ ["--resolution requires a value"] }
  | .fps =>
      clipIntStep rest (fun n => { cmd with fps := some n })
        { cmd with errors := cmd.errors ++ ["--fps requires a number"] }
        { cmd with errors := cmd.errors ++ ["--fps requires a value"] }
  | .bitrate =>
      clipValueStep rest (fun v => { cmd with bitrate := some v })
        { cmd with errors := cmd.errors ++ ["--bitrate requires a value"] }
  | .fmt =>
      clipValueStep rest (fun v => { cmd with output_format := some v })
        { cmd with errors := cmd.errors ++ ["--format requires a value"] }
  | .force => (rest, { cmd with force := true })
  | .confirm => (rest, { cmd with confirm := true })
  | .cancel => (rest, { cmd with cancel := true })
  | .clipIdx =>
      clipIntStep rest (fun n => { cmd with clip_index := some (n - 1) })
        { cmd with errors := cmd.errors ++ ["--clip requires a number"] }
        { cmd with errors := cmd.errors ++ ["--clip requires an index"] }
  | .skipIdx =>
      clipIntStep rest (fun n => { cmd with skip_indices := cmd.skip_indices ++ [n - 1] })
        { cmd with errors := cmd.errors ++ ["--skip requires a number"] }
        { cmd with errors := cmd.errors ++ ["--skip requires an index"] }
  | .unknown =>
      (rest, { cmd with errors := cmd.errors ++ ["Unknown flag: " ++ t] })

/-- The clip grammar's token loop from a given state. -/
def clipLoop (ts : List String) (cmd : ClipCommand) : ClipCommand :=
  runF stepClip ts.length ts cmd

/-- `parse_clip_command(command_text)`. -/
def parse_clip_command (command_text : String) : ClipCommand :=
  let text0 := pyStrip command_text
  let text := if pyStartsW text0 "$clip" then pyStrip (strDrop text0 5) else text0
  if text = "" then { errors := ["No parameters provided"] }
  else clipLoop (tokenize text) {}

/-! ## Supporting lemmas -/

theorem takeWhile_len_le (p : String → Bool) :
    ∀ l : List String, (l.takeWhile p).length ≤ l.length := by
  intro l
  induction l with
  | nil => simp
  | cons a l ih =>
      rw [List.takeWhile_cons]
      by_cases h : p a
      · simp only [h, if_true, List.length_cons]
        exact Nat.succ_le_succ ih
      · simp only [h]
        simp

theorem self_eq_append_append {α : Type} {l d1 d2 : List α}
    (h : l = (l ++ d1) ++ d2) : d1 = [] ∧ d2 = [] := by
  have hl := congrArg List.length h
  simp only [List.length_append] at hl
  constructor
  · exact List.eq_nil_of_length_eq_zero (by omega)
  · exact List.eq_nil_of_length_eq_zero (by omega)

/-- `consumeRun` collects exactly the leading run of non-flag-like
tokens, and its counter is one more than the run's length. -/
theorem consumeRun_eq (l : List String) :
    consumeRun l = (l.takeWhile (fun t => !isFlagLike t),
                    (l.takeWhile (fun t => !isFlagLike t)).length + 1) := by
  induction l with
  | nil => rfl
  | cons t rest ih =>
      by_cases h : isFlagLike t
      · simp [consumeRun, h, List.takeWhile_cons]
      · simp [consumeRun, h, List.takeWhile_cons, ih]

theorem consumeRun_append {f : String} (hf : isFlagLike f = true) :
    ∀ l : List String, consumeRun (l ++ [f]) = consumeRun l := by
  intro l
  induction l with
  | nil => simp [consumeRun, hf]
  | cons t rest ih =>
      by_cases h : isFlagLike t
      · simp [consumeRun, h]
      · rw [List.cons_append, consumeRun, consumeRun, if_neg (by simp [h]),
            if_neg (by simp [h]), ih]

theorem consumeRun_snd_le : ∀ l : List String, (consumeRun l).2 ≤ l.length + 1 := by
  intro l
  rw [consumeRun_eq]
  exact Nat.succ_le_succ (takeWhile_len_le _ l)

/-- Appending a flag-like token does not change what `_consume_value`
collects from the front of the remainder list. -/
theorem consume_value_append {f : String} (hf : isFlagLike f = true)
    (rest : List String) :
    consume_value (rest ++ [f]) 0 = consume_value rest 0 := by
  cases rest with
  | nil =>
      simp [consume_value, consumeRun, hf]
  | cons t rest' =>
      simp only [consume_value, List.drop_zero]
      rw [if_neg (show ¬ ((t :: rest') ++ [f]).length ≤ 0 by simp),
          if_neg (show ¬ (t :: rest').length ≤ 0 by simp),
          consumeRun_append hf]

/-- If `_consume_value` succeeds on the remainder list, its consumed
count stays within one of the list's length. -/
theorem consume_value_snd_le (rest : List String) {v : String} {c : Nat}
    (h : consume_value rest 0 = (some v, c)) : c - 1 ≤ rest.length := by
  by_cases hr : rest.length ≤ 0
  · simp [consume_value, hr] at h
  · have hc : c = (consumeRun rest).2 := by
      simp only [consume_value, hr, if_false, List.drop_zero] at h
      rcases hrun : consumeRun rest with ⟨vs, c0⟩
      rw [hrun] at h
      by_cases hvs : vs.isEmpty
      · simp [hvs] at h
      · simp [hvs] at h
        simp [h.2]
    have := consumeRun_snd_le rest
    omega

/-! ## Generic lemmas about the fuel-indexed loop -/

section RunLemmas

variable {C : Type} (step : String → List String → C → List String × C)
variable (err : C → List String)

theorem runF_nil : ∀ n (st : C), runF step n [] st = st
  | 0, _ => rfl
  | _ + 1, _ => rfl

theorem runF_zero : ∀ ts (st : C), runF step 0 ts st = st := by
  intro ts st
  cases ts <;> rfl

/-- With enough fuel, the loop result does not depend on the fuel. -/
theorem runF_fuel (Hle : ∀ t rest st, ((step t rest st).1).length ≤ rest.length) :
    ∀ n m ts (st : C), ts.length ≤ n → ts.length ≤ m →
      runF step n ts st = runF step m ts st := by
  intro n
  induction n with
  | zero =>
      intro m ts st h1 _
      have : ts = [] := List.eq_nil_of_length_eq_zero (Nat.le_zero.mp h1)
      subst this
      rw [runF_nil, runF_nil]
  | succ n ih =>
      intro m ts st h1 h2
      cases ts with
      | nil => rw [runF_nil, runF_nil]
      | cons t rest =>
          cases m with
          | zero => simp at h2
          | succ m =>
              show runF step n _ _ = runF step m _ _
              have hlen := Hle t rest st
              simp only [List.length_cons, Nat.succ_le_succ_iff] at h1 h2
              exact ih m _ _ (le_trans hlen h1) (le_trans hlen h2)

/-- The loop only ever appends to the error list. -/
theorem runF_errs (Hmono : ∀ t rest st, ∃ d, err (step t rest st).2 = err st ++ d) :
    ∀ n ts (st : C), ∃ d, err (runF step n ts st) = err st ++ d := by
  intro n
  induction n with
  | zero => intro ts st; exact ⟨[], by rw [runF_zero, List.append_nil]⟩
  | succ n ih =>
      intro ts st
      cases ts with
      | nil => exact ⟨[], by rw [runF_nil]; simp⟩
      | cons t rest =>
          obtain ⟨d1, h1⟩ := Hmono t rest st
          obtain ⟨d2, h2⟩ := ih (step t rest st).1 (step t rest st).2
          refine ⟨d1 ++ d2, ?_⟩
          show err (runF step n _ _) = _
          rw [h2, h1, List.append_assoc]

/-- Processing `p ++ [f]` for a final flag token `f` equals processing
`p` and then taking `f`'s own step with no following tokens — provided
the processing of `p` produced no error (each step is either stable
under the appended flag, or visibly adds an error). -/
theorem runF_append (Hle : ∀ t rest st, ((step t rest st).1).length ≤ rest.length)
    (Hmono : ∀ t rest st, ∃ d, err (step t rest st).2 = err st ++ d)
    (f : String)
    (Hstable : ∀ t rest st,
      step t (rest ++ [f]) st = ((step t rest st).1 ++ [f], (step t rest st).2) ∨
      err (step t rest st).2 ≠ err st) :
    ∀ n p (st : C), p.length ≤ n → err (runF step n p st) = err st →
      runF step (n + 1) (p ++ [f]) st = (step f [] (runF step n p st)).2 := by
  intro n
  induction n with
  | zero =>
      intro p st h1 _
      have : p = [] := List.eq_nil_of_length_eq_zero (Nat.le_zero.mp h1)
      subst this
      rfl
  | succ n ih =>
      intro p st h1 h2
      cases p with
      | nil =>
          have hr : (step f [] st).1 = [] :=
            List.eq_nil_of_length_eq_zero (Nat.le_zero.mp (Hle f [] st))
          show runF step (n + 1) (step f [] st).1 (step f [] st).2 =
               (step f [] (runF step (n + 1) [] st)).2
          rw [hr, runF_nil, runF_nil]
      | cons t p' =>
          obtain ⟨d1, hd1⟩ := Hmono t p' st
          obtain ⟨d2, hd2⟩ :=
            runF_errs step err Hmono n (step t p' st).1 (step t p' st).2
          have h2' : err (runF step n (step t p' st).1 (step t p' st).2) = err st := h2
          have hnil : d1 = [] ∧ d2 = [] := by
            refine self_eq_append_append (l := err st) ?_
            rw [← hd1, ← hd2, h2']
          have hs' : err (step t p' st).2 = err st := by
            rw [hd1, hnil.1, List.append_nil]
          rcases Hstable t p' st with hs | hs
          · have hlen : ((step t p' st).1).length ≤ n :=
              le_trans (Hle t p' st) (by simpa using h1)
            have hrun : err (runF step n (step t p' st).1 (step t p' st).2) =
                err (step t p' st).2 := by
              rw [hd2, hnil.2, List.append_nil, hs']
            calc runF step (n + 2) ((t :: p') ++ [f]) st
                = runF step (n + 1) (step t (p' ++ [f]) st).1 (step t (p' ++ [f]) st).2 := rfl
              _ = runF step (n + 1) ((step t p' st).1 ++ [f]) (step t p' st).2 := by rw [hs]
              _ = (step f [] (runF step n (step t p' st).1 (step t p' st).2)).2 :=
                  ih _ _ hlen hrun
          · exact absurd hs' hs

end RunLemmas

/-! ## Facts about the shared branch shapes -/

theorem drop_len_le (n : Nat) (l : List String) : (l.drop n).length ≤ l.length := by
  rw [List.length_drop]; omega

theorem simpleValueStep_le {C : Type} (rest : List String) (set : String → C) (e : C) :
    ((simpleValueStep rest set e).1).length ≤ rest.length := by
  unfold simpleValueStep consumeStep
  rcases hcv : consume_value rest 0 with ⟨v?, c⟩
  rcases v? with _ | v
  · exact Nat.le_refl _
  · dsimp only
    split_ifs
    · exact Nat.le_refl _
    · exact drop_len_le _ _

theorem simpleValueStep_snd {C : Type} (rest : List String) (set : String → C) (e : C) :
    (simpleValueStep rest set e).2 = e ∨ ∃ v, (simpleValueStep rest set e).2 = set v := by
  unfold simpleValueStep consumeStep
  rcases hcv : consume_value rest 0 with ⟨v?, c⟩
  rcases v? with _ | v
  · exact Or.inl rfl
  · dsimp only
    split_ifs
    · exact Or.inl rfl
    · exact Or.inr ⟨v, rfl⟩

theorem simpleValueStep_stable {f : String} (hf : isFlagLike f = true)
    {C : Type} (rest : List String) (set : String → C) (e : C) :
    simpleValueStep (rest ++ [f]) set e =
      ((simpleValueStep rest set e).1 ++ [f], (simpleValueStep rest set e).2) := by
  unfold simpleValueStep consumeStep
  rcases hcv : consume_value rest 0 with ⟨v?, c⟩
  have hcv' : consume_value (rest ++ [f]) 0 = (v?, c) := by
    rw [consume_value_append hf, hcv]
  rw [hcv']
  rcases v? with _ | v
  · rfl
  · have hdropf : (rest ++ [f]).drop (c - 1) = rest.drop (c - 1) ++ [f] :=
      List.drop_append_of_le_length (consume_value_snd_le rest hcv)
    dsimp only
    split_ifs
    · rfl
    · rw [hdropf]

theorem chatPromptStep_le (rest : List String) (cmd : ChatCommand) :
    ((chatPromptStep rest cmd).1).length ≤ rest.length := by
  unfold chatPromptStep consumeStep
  rcases hcv : consume_value rest 0 with ⟨v?, c⟩
  rcases v? with _ | v
  · exact Nat.le_refl _
  · dsimp only
    rcases hcv2 : consume_value (rest.drop (c - 1)) 0 with ⟨v2?, c2⟩
    rcases v2? with _ | v2 <;> dsimp only <;> split_ifs <;>
      first
        | exact Nat.le_refl _
        | exact drop_len_le _ _
        | exact le_trans (drop_len_le _ _) (drop_len_le _ _)

theorem chatPromptStep_mono (rest : List String) (cmd : ChatCommand) :
    ∃ d, (chatPromptStep rest cmd).2.errors = cmd.errors ++ d := by
  unfold chatPromptStep consumeStep
  rcases hcv : consume_value rest 0 with ⟨v?, c⟩
  rcases v? with _ | v
  · exact ⟨_, rfl⟩
  · dsimp only
    rcases hcv2 : consume_value (rest.drop (c - 1)) 0 with ⟨v2?, c2⟩
    rcases v2? with _ | v2 <;> dsimp only <;> split_ifs <;>
      first | exact ⟨_, rfl⟩ | exact ⟨[], (List.append_nil _).symm⟩

theorem chatPromptStep_stable {f : String} (hf : isFlagLike f = true)
    (rest : List String) (cmd : ChatCommand) :
    chatPromptStep (rest ++ [f]) cmd =
      ((chatPromptStep rest cmd).1 ++ [f], (chatPromptStep rest cmd).2) := by
  unfold chatPromptStep consumeStep
  rcases hcv : consume_value rest 0 with ⟨v?, c⟩
  have hcv' : consume_value (rest ++ [f]) 0 = (v?, c) := by
    rw [consume_value_append hf, hcv]
  rw [hcv']
  rcases v? with _ | v
  · rfl
  · have hdropf : (rest ++ [f]).drop (c - 1) = rest.drop (c - 1) ++ [f] :=
      List.drop_append_of_le_length (consume_value_snd_le rest hcv)
    dsimp only
    rw [hdropf]
    rcases hcv2 : consume_value (rest.drop (c - 1)) 0 with ⟨v2?, c2⟩
    have hcv2' : consume_value (rest.drop (c - 1) ++ [f]) 0 = (v2?, c2) := by
      rw [consume_value_append hf, hcv2]
    rw [hcv2']
    rcases v2? with _ | v2
    · split_ifs <;> rfl
    · have hdropf2 : (rest.drop (c - 1) ++ [f]).drop (c2 - 1) =
          (rest.drop (c - 1)).drop (c2 - 1) ++ [f] :=
        List.drop_append_of_le_length (consume_value_snd_le _ hcv2)
      dsimp only
      rw [hdropf2]
      split_ifs <;> rfl

theorem chatListenStep_le (rest : List String) (cmd : ChatCommand) :
    ((chatListenStep rest cmd).1).length ≤ rest.length := by
  unfold chatListenStep
  rcases hcv : consume_value rest 0 with ⟨v?, c⟩
  rcases v? with _ | v
  · exact Nat.le_refl _
  · dsimp only
    split_ifs
    · exact drop_len_le _ _
    · exact Nat.le_refl _

theorem chatListenStep_mono (rest : List String) (cmd : ChatCommand) :
    ∃ d, (chatListenStep rest cmd).2.errors = cmd.errors ++ d := by
  unfold chatListenStep
  rcases hcv : consume_value rest 0 with ⟨v?, c⟩
  rcases v? with _ | v
  · exact ⟨_, rfl⟩
  · dsimp only
    split_ifs
    · exact ⟨[], (List.append_nil _).symm⟩
    · exact ⟨_, rfl⟩

theorem chatListenStep_stable {f : String} (hf : isFlagLike f = true)
    (rest : List String) (cmd : ChatCommand) :
    chatListenStep (rest ++ [f]) cmd =
      ((chatListenStep rest cmd).1 ++ [f], (chatListenStep rest cmd).2) := by
  unfold chatListenStep
  rcases hcv : consume_value rest 0 with ⟨v?, c⟩
  have hcv' : consume_value (rest ++ [f]) 0 = (v?, c) := by
    rw [consume_value_append hf, hcv]
  rw [hcv']
  rcases v? with _ | v
  · rfl
  · have hdropf : (rest ++ [f]).drop (c - 1) = rest.drop (c - 1) ++ [f] :=
      List.drop_append_of_le_length (consume_value_snd_le rest hcv)
    dsimp only
    split_ifs
    · rw [hdropf]
    · rfl

/-! ## Step-function facts: chat -/

theorem stepChat_le (t : String) (rest : List String) (cmd : ChatCommand) :
    ((stepChat t rest cmd).1).length ≤ rest.length := by
  unfold stepChat
  split_ifs <;>
    first
      | apply simpleValueStep_le
      | apply chatPromptStep_le
      | apply chatListenStep_le
      | exact Nat.le_refl _

theorem stepChat_mono (t : String) (rest : List String) (cmd : ChatCommand) :
    ∃ d, (stepChat t rest cmd).2.errors = cmd.errors ++ d := by
  unfold stepChat
  split_ifs <;>
    first
      | apply chatPromptStep_mono
      | apply chatListenStep_mono
      | (rcases simpleValueStep_snd rest _ _ with h | ⟨v, h⟩ <;> rw [h] <;>
          first | exact ⟨_, rfl⟩ | exact ⟨[], (List.append_nil _).symm⟩)
      | exact ⟨_, rfl⟩
      | exact ⟨[], (List.append_nil _).symm⟩

theorem stepChat_stable {f : String} (hf : isFlagLike f = true)
    (t : String) (rest : List String) (cmd : ChatCommand) :
    stepChat t (rest ++ [f]) cmd =
      ((stepChat t rest cmd).1 ++ [f], (stepChat t rest cmd).2) := by
  unfold stepChat
  split_ifs <;>
    first
      | apply simpleValueStep_stable hf
      | apply chatPromptStep_stable hf
      | apply chatListenStep_stable hf
      | rfl

/-! ## Step-function facts: music -/

theorem collectUrls_snd_le : ∀ l : List String, ((collectUrls l).2).length ≤ l.length := by
  intro l
  induction l with
  | nil => exact Nat.le_refl _
  | cons t rest ih =>
      unfold collectUrls
      split_ifs
      · exact Nat.le_refl _
      · exact le_trans ih (Nat.le_succ _)

theorem collectUrls_append {f : String} (hf : isFlagLike f = true) :
    ∀ l : List String,
      collectUrls (l ++ [f]) = ((collectUrls l).1, (collectUrls l).2 ++ [f]) := by
  intro l
  induction l with
  | nil => simp [collectUrls, hf]
  | cons t rest ih =>
      rw [List.cons_append]
      unfold collectUrls
      split_ifs
      · rfl
      · dsimp only
        rw [ih]

theorem musicYoutubeStep_le (rest : List String) (cmd : MusicCommand) :
    ((musicYoutubeStep rest cmd).1).length ≤ rest.length := by
  unfold musicYoutubeStep
  exact collectUrls_snd_le rest

theorem musicYoutubeStep_mono (rest : List String) (cmd : MusicCommand) :
    ∃ d, (musicYoutubeStep rest cmd).2.errors = cmd.errors ++ d := by
  unfold musicYoutubeStep
  dsimp only
  split_ifs
  · exact ⟨_, rfl⟩
  · exact ⟨[], (List.append_nil _).symm⟩

theorem musicYoutubeStep_stable {f : String} (hf : isFlagLike f = true)
    (rest : List String) (cmd : MusicCommand) :
    musicYoutubeStep (rest ++ [f]) cmd =
      ((musicYoutubeStep rest cmd).1 ++ [f], (musicYoutubeStep rest cmd).2) := by
  unfold musicYoutubeStep
  rw [collectUrls_append hf]

theorem stepMusic_le (t : String) (rest : List String) (cmd : MusicCommand) :
    ((stepMusic t rest cmd).1).length ≤ rest.length := by
  unfold stepMusic
  split_ifs <;> first | apply musicYoutubeStep_le | exact Nat.le_refl _

theorem stepMusic_mono (t : String) (rest : List String) (cmd : MusicCommand) :
    ∃ d, (stepMusic t rest cmd).2.errors = cmd.errors ++ d := by
  unfold stepMusic
  split_ifs <;>
    first
      | apply musicYoutubeStep_mono
      | exact ⟨_, rfl⟩
      | exact ⟨[], (List.append_nil _).symm⟩

set_option maxHeartbeats 4000000 in
theorem stepMusic_stable {f : String} (hf : isFlagLike f = true)
    (t : String) (rest : List String) (cmd : MusicCommand) :
    stepMusic t (rest ++ [f]) cmd =
      ((stepMusic t rest cmd).1 ++ [f], (stepMusic t rest cmd).2) := by
  unfold stepMusic
  split_ifs
  all_goals first | exact musicYoutubeStep_stable hf rest cmd | rfl

/-! ## Step-function facts: wolfram and google -/

theorem stepWolfram_le (t : String) (rest : List String) (cmd : SearchCommand) :
    ((stepWolfram t rest cmd).1).length ≤ rest.length := by
  unfold stepWolfram
  split_ifs <;> first | apply simpleValueStep_le | exact Nat.le_refl _

theorem stepWolfram_mono (t : String) (rest : List String) (cmd : SearchCommand) :
    ∃ d, (stepWolfram t rest cmd).2.errors = cmd.errors ++ d := by
  unfold stepWolfram
  split_ifs <;>
    first
      | (rcases simpleValueStep_snd rest _ _ with h | ⟨v, h⟩ <;> rw [h] <;>
          first | exact ⟨_, rfl⟩ | exact ⟨[], (List.append_nil _).symm⟩)
      | exact ⟨_, rfl⟩

theorem stepWolfram_stable {f : String} (hf : isFlagLike f = true)
    (t : String) (rest : List String) (cmd : SearchCommand) :
    stepWolfram t (rest ++ [f]) cmd =
      ((stepWolfram t rest cmd).1 ++ [f], (stepWolfram t rest cmd).2) := by
  unfold stepWolfram
  split_ifs <;> first | apply simpleValueStep_stable hf | rfl

theorem stepGoogle_le (t : String) (rest : List String) (cmd : SearchCommand) :
    ((stepGoogle t rest cmd).1).length ≤ rest.length := by
  unfold stepGoogle
  split_ifs <;> first | apply simpleValueStep_le | exact Nat.le_refl _

theorem stepGoogle_mono (t : String) (rest : List String) (cmd : SearchCommand) :
    ∃ d, (stepGoogle t rest cmd).2.errors = cmd.errors ++ d := by
  unfold stepGoogle
  split_ifs <;>
    first
      | (rcases simpleValueStep_snd rest _ _ with h | ⟨v, h⟩ <;> rw [h] <;>
          first | exact ⟨_, rfl⟩ | exact ⟨[], (List.append_nil _).symm⟩)
      | exact ⟨_, rfl⟩

theorem stepGoogle_stable {f : String} (hf : isFlagLike f = true)
    (t : String) (rest : List String) (cmd : SearchCommand) :
    stepGoogle t (rest ++ [f]) cmd =
      ((stepGoogle t rest cmd).1 ++ [f], (stepGoogle t rest cmd).2) := by
  unfold stepGoogle
  split_ifs <;> first | apply simpleValueStep_stable hf | rfl

/-! ## Step-function facts: reminder -/

theorem remTimeStep_le (rest : List String) (st : RemState) :
    ((remTimeStep rest st).1).length ≤ rest.length := by
  unfold remTimeStep consumeStep
  rcases hcv : consume_value rest 0 with ⟨v?, c⟩
  rcases v? with _ | v
  · exact Nat.le_refl _
  · dsimp only
    split_ifs
    · exact Nat.le_refl _
    · rcases hsp : pySplitWs v with _ | ⟨w, ws⟩
      · exact drop_len_le _ _
      · dsimp only
        split_ifs <;> exact drop_len_le _ _

theorem remTimeStep_mono (rest : List String) (st : RemState) :
    ∃ d, (remTimeStep rest st).2.errors = st.errors ++ d := by
  unfold remTimeStep consumeStep
  rcases hcv : consume_value rest 0 with ⟨v?, c⟩
  rcases v? with _ | v
  · exact ⟨_, rfl⟩
  · dsimp only
    split_ifs
    · exact ⟨_, rfl⟩
    · rcases hsp : pySplitWs v with _ | ⟨w, ws⟩
      · exact ⟨[], (List.append_nil _).symm⟩
      · dsimp only
        split_ifs
        · exact ⟨[], (List.append_nil _).symm⟩
        · exact ⟨_, rfl⟩

theorem remTimeStep_stable {f : String} (hf : isFlagLike f = true)
    (rest : List String) (st : RemState) :
    remTimeStep (rest ++ [f]) st =
      ((remTimeStep rest st).1 ++ [f], (remTimeStep rest st).2) := by
  unfold remTimeStep consumeStep
  rcases hcv : consume_value rest 0 with ⟨v?, c⟩
  have hcv' : consume_value (rest ++ [f]) 0 = (v?, c) := by
    rw [consume_value_append hf, hcv]
  rw [hcv']
  rcases v? with _ | v
  · rfl
  · have hdropf : (rest ++ [f]).drop (c - 1) = rest.drop (c - 1) ++ [f] :=
      List.drop_append_of_le_length (consume_value_snd_le rest hcv)
    dsimp only
    split_ifs
    · rfl
    · rcases hsp : pySplitWs v with _ | ⟨w, ws⟩
      · dsimp only
        rw [hdropf]
      · dsimp only
        split_ifs <;> rw [hdropf]

theorem stepRem_le (t : String) (rest : List String) (st : RemState) :
    ((stepRem t rest st).1).length ≤ rest.length := by
  unfold stepRem
  split_ifs <;>
    first
      | apply remTimeStep_le
      | apply simpleValueStep_le
      | exact Nat.le_refl _

theorem stepRem_mono (t : String) (rest : List String) (st : RemState) :
    ∃ d, (stepRem t rest st).2.errors = st.errors ++ d := by
  unfold stepRem
  split_ifs <;>
    first
      | apply remTimeStep_mono
      | (rcases simpleValueStep_snd rest _ _ with h | ⟨v, h⟩ <;> rw [h] <;>
          first | exact ⟨_, rfl⟩ | exact ⟨[], (List.append_nil _).symm⟩)
      | exact ⟨_, rfl⟩
      | exact ⟨[], (List.append_nil _).symm⟩

theorem stepRem_stable {f : String} (hf : isFlagLike f = true)
    (t : String) (rest : List String) (st : RemState) :
    stepRem t (rest ++ [f]) st =
      ((stepRem t rest st).1 ++ [f], (stepRem t rest st).2) := by
  unfold stepRem
  split_ifs <;>
    first
      | apply remTimeStep_stable hf
      | apply simpleValueStep_stable hf
      | rfl

/-! ## Step-function facts: clip -/

theorem errs_ne_append (l : List String) (m : String) : l ++ [m] ≠ l := by
  intro h
  have h2 := congrArg List.length h
  simp only [List.length_append, List.length_cons, List.length_nil] at h2
  omega

theorem clipValueStep_le {C : Type} (rest : List String) (set : String → C) (e : C) :
    ((clipValueStep rest set e).1).length ≤ rest.length := by
  cases rest with
  | nil => exact Nat.le_refl _
  | cons v rest2 => exact Nat.le_succ _

theorem clipIntStep_le {C : Type} (rest : List String) (set : Int → C) (e1 e2 : C) :
    ((clipIntStep rest set e1 e2).1).length ≤ rest.length := by
  cases rest with
  | nil => exact Nat.le_refl _
  | cons v rest2 =>
      unfold clipIntStep
      dsimp only
      rcases hpi : pyInt v with _ | n
      · exact Nat.le_refl _
      · exact Nat.le_succ _

theorem clipValueStep_snd {C : Type} (rest : List String) (set : String → C) (e : C) :
    (clipValueStep rest set e).2 = e ∨ ∃ v, (clipValueStep rest set e).2 = set v := by
  cases rest with
  | nil => exact Or.inl rfl
  | cons v rest2 => exact Or.inr ⟨v, rfl⟩

theorem clipIntStep_snd {C : Type} (rest : List String) (set : Int → C) (e1 e2 : C) :
    (clipIntStep rest set e1 e2).2 = e2 ∨ (clipIntStep rest set e1 e2).2 = e1 ∨
      ∃ n, (clipIntStep rest set e1 e2).2 = set n := by
  cases rest with
  | nil => exact Or.inl rfl
  | cons v rest2 =>
      unfold clipIntStep
      dsimp only
      rcases hpi : pyInt v with _ | n
      · exact Or.inr (Or.inl rfl)
      · exact Or.inr (Or.inr ⟨n, rfl⟩)

theorem clipValueStep_stable_or {f : String} {C : Type}
    (err : C → List String) (rest : List String) (set : String → C) (e : C)
    (cmd0 : C) (he : err e ≠ err cmd0) :
    clipValueStep (rest ++ [f]) set e =
      ((clipValueStep rest set e).1 ++ [f], (clipValueStep rest set e).2) ∨
    err (clipValueStep rest set e).2 ≠ err cmd0 := by
  cases rest with
  | nil => exact Or.inr he
  | cons v rest2 => exact Or.inl rfl

theorem clipIntStep_stable_or {f : String} {C : Type}
    (err : C → List String) (rest : List String) (set : Int → C) (e1 e2 : C)
    (cmd0 : C) (he : err e2 ≠ err cmd0) :
    clipIntStep (rest ++ [f]) set e1 e2 =
      ((clipIntStep rest set e1 e2).1 ++ [f], (clipIntStep rest set e1 e2).2) ∨
    err (clipIntStep rest set e1 e2).2 ≠ err cmd0 := by
  cases rest with
  | nil => exact Or.inr he
  | cons v rest2 =>
      left
      unfold clipIntStep
      dsimp only [List.cons_append]
      rcases hpi : pyInt v with _ | n <;> rfl

theorem stepClip_le (t : String) (rest : List String) (cmd : ClipCommand) :
    ((stepClip t rest cmd).1).length ≤ rest.length := by
  unfold stepClip
  rcases hcf : clipFlagOf t <;>
    first
      | apply clipValueStep_le
      | apply clipIntStep_le
      | exact Nat.le_refl _

theorem stepClip_mono (t : String) (rest : List String) (cmd : ClipCommand) :
    ∃ d, (stepClip t rest cmd).2.errors = cmd.errors ++ d := by
  unfold stepClip
  rcases hcf : clipFlagOf t <;>
    first
      | (rcases clipValueStep_snd rest _ _ with h | ⟨v, h⟩ <;> rw [h] <;>
          first | exact ⟨_, rfl⟩ | exact ⟨[], (List.append_nil _).symm⟩)
      | (rcases clipIntStep_snd rest _ _ _ with h | h | ⟨n, h⟩ <;> rw [h] <;>
          first | exact ⟨_, rfl⟩ | exact ⟨[], (List.append_nil _).symm⟩)
      | exact ⟨_, rfl⟩
      | exact ⟨[], (List.append_nil _).symm⟩

theorem stepClip_stable_or {f : String} (hf : isFlagLike f = true)
    (t : String) (rest : List String) (cmd : ClipCommand) :
    stepClip t (rest ++ [f]) cmd =
      ((stepClip t rest cmd).1 ++ [f], (stepClip t rest cmd).2) ∨
    (stepClip t rest cmd).2.errors ≠ cmd.errors := by
  unfold stepClip
  rcases hcf : clipFlagOf t <;>
    first
      | exact clipValueStep_stable_or ClipCommand.errors rest _ _ cmd
          (errs_ne_append _ _)
      | exact clipIntStep_stable_or ClipCommand.errors rest _ _ _ cmd
          (errs_ne_append _ _)
      | exact Or.inl rfl

/-! ## The tokenizer implements the spec's state machine -/

/-- The spec-worded scanner agrees with the source tokenizer's loop:
the accumulated output distributes over the recursion, and the
two-variable quote state (`in_quotes`, `quote_char`) of the source
coincides with the spec's single optional active-quote character. -/
theorem specScan_eq_tokenizeAux :
    ∀ (cs : List Char) (out : List String) (buf : String) (q : Option Char),
      specScan cs out buf q = out ++ tokenizeAux cs buf q.isSome q := by
  intro cs out buf q
  induction cs, out, buf, q using specScan.induct with
  | case1 out x => simp [specScan, tokenizeAux]
  | case2 out buf x h => simp [specScan, tokenizeAux, h]
  | case3 c2 rest out buf q h ih =>
      simp only [Option.isSome_some] at ih ⊢
      rw [specScan.eq_2, tokenizeAux.eq_2, if_pos h, if_pos h]
      exact ih
  | case4 c2 rest out buf q h ih =>
      simp only [Option.isSome_some] at ih ⊢
      rw [specScan.eq_2, tokenizeAux.eq_2, if_neg h, if_neg h]
      exact ih
  | case5 c rest out buf h hno ih =>
      have hno2 : ∀ (c2 : Char) (rest_1 : List Char),
          c = '\\' → rest = c2 :: rest_1 → (none : Option Char).isSome = true → False :=
        fun _ _ _ _ hs => Bool.noConfusion hs
      rw [specScan.eq_3 _ _ _ _ (fun _ _ _ _ _ hq => Option.noConfusion hq),
          tokenizeAux.eq_3 _ _ _ _ _ hno2]
      rw [if_pos h, if_pos h, if_pos (show (!(none : Option Char).isSome) = true from rfl)]
      exact ih
  | case6 rest out buf q h hno ih =>
      have hno2 : ∀ (c2 : Char) (rest_1 : List Char),
          q = '\\' → rest = c2 :: rest_1 → (some q : Option Char).isSome = true → False :=
        fun c2 r1 hc hr _ => hno c2 r1 q hc hr rfl
      rw [specScan.eq_4 _ _ _ _ _ (fun c2 r1 q1 hc hr hq => hno c2 r1 q1 hc hr hq),
          tokenizeAux.eq_3 _ _ _ _ _ hno2]
      rw [if_pos h, if_pos h, if_pos rfl,
          if_neg (show ¬ (!(some q : Option Char).isSome) = true from fun hh => Bool.noConfusion hh),
          if_pos rfl]
      rw [ih, List.append_assoc, List.singleton_append]
      simp only [Option.isSome_none]
  | case7 c rest out buf h q hne hno ih =>
      have hno2 : ∀ (c2 : Char) (rest_1 : List Char),
          c = '\\' → rest = c2 :: rest_1 → (some q : Option Char).isSome = true → False :=
        fun c2 r1 hc hr _ => hno c2 r1 q hc hr rfl
      rw [specScan.eq_4 _ _ _ _ _ (fun c2 r1 q1 hc hr hq => hno c2 r1 q1 hc hr hq),
          tokenizeAux.eq_3 _ _ _ _ _ hno2]
      rw [if_pos h, if_pos h, if_neg hne,
          if_neg (show ¬ (!(some q : Option Char).isSome) = true from fun hh => Bool.noConfusion hh),
          if_neg (fun hh => hne (Option.some.inj hh))]
      exact ih
  | case8 c rest out state hno hq hsp ih =>
      obtain ⟨hs0, hs1⟩ := hsp
      subst hs0
      rw [specScan.eq_3 _ _ _ _ (fun _ _ _ _ _ hq2 => Option.noConfusion hq2),
          tokenizeAux.eq_3 _ _ _ _ _ (fun _ _ _ _ hs => Bool.noConfusion hs)]
      rw [if_neg hq, if_neg hq, if_pos ⟨rfl, hs1⟩,
          if_pos (show pyIsSpace c = true ∧ (!(none : Option Char).isSome) = true from ⟨hs1, rfl⟩),
          if_pos rfl, if_pos rfl]
      exact ih
  | case9 c rest out buf state hno hq hsp hbuf ih =>
      obtain ⟨hs0, hs1⟩ := hsp
      subst hs0
      rw [specScan.eq_3 _ _ _ _ (fun _ _ _ _ _ hq2 => Option.noConfusion hq2),
          tokenizeAux.eq_3 _ _ _ _ _ (fun _ _ _ _ hs => Bool.noConfusion hs)]
      rw [if_neg hq, if_neg hq, if_pos ⟨rfl, hs1⟩,
          if_pos (show pyIsSpace c = true ∧ (!(none : Option Char).isSome) = true from ⟨hs1, rfl⟩),
          if_neg hbuf, if_neg hbuf]
      rw [ih, List.append_assoc, List.singleton_append]
  | case10 c rest out buf state hno hq hns ih =>
      rcases state with _ | qv
      · have hnsp : ¬ pyIsSpace c = true := fun hh => hns ⟨rfl, hh⟩
        rw [specScan.eq_3 _ _ _ _ (fun _ _ _ _ _ hq2 => Option.noConfusion hq2),
            tokenizeAux.eq_3 _ _ _ _ _ (fun _ _ _ _ hs => Bool.noConfusion hs)]
        rw [if_neg hq, if_neg hq, if_neg (fun hh => hnsp hh.2),
            if_neg (show ¬ (pyIsSpace c = true ∧ (!(none : Option Char).isSome) = true) from
              fun hh => hnsp hh.1)]
        exact ih
      · have hno2 : ∀ (c2 : Char) (rest_1 : List Char),
            c = '\\' → rest = c2 :: rest_1 → (some qv : Option Char).isSome = true → False :=
          fun c2 r1 hc hr _ => hno c2 r1 qv hc hr rfl
        rw [specScan.eq_4 _ _ _ _ _ (fun c2 r1 q1 hc hr hq2 => hno c2 r1 q1 hc hr hq2),
            tokenizeAux.eq_3 _ _ _ _ _ hno2]
        rw [if_neg hq, if_neg hq,
            if_neg (show ¬ ((some qv : Option Char) = none ∧ pyIsSpace c = true) from
              fun hh => Option.noConfusion hh.1),
            if_neg (show ¬ (pyIsSpace c = true ∧ (!(some qv : Option Char).isSome) = true) from
              fun hh => Bool.noConfusion hh.2)]
        exact ih

/-- `_tokenize` agrees with the spec's machine on every input. -/
theorem tokenize_eq_tokenizeSpec (s : String) : tokenize s = tokenizeSpec s := by
  unfold tokenize tokenizeSpec
  rw [specScan_eq_tokenizeAux]
  rfl

/-! ## Loop-level lemmas -/

/-- Whether the value run starting just before this list stops here:
the list is empty or begins with a flag-like token. -/
def stopsRun : List String → Bool
  | [] => true
  | t :: _ => isFlagLike t

theorem consumeRun_stops {rest : List String} (h : stopsRun rest = true) :
    consumeRun rest = ([], 1) := by
  cases rest with
  | nil => rfl
  | cons t r =>
      unfold consumeRun
      rw [if_pos (by exact h)]

/-- `_consume_value` on one non-flag token followed by a run stop. -/
theorem consume_value_one (v : String) (rest : List String)
    (h1 : isFlagLike v = false) (hs : stopsRun rest = true) :
    consume_value (v :: rest) 0 = (some v, 2) := by
  unfold consume_value
  rw [if_neg (by simp)]
  rw [List.drop_zero]
  unfold consumeRun
  rw [if_neg (by simp [h1]), consumeRun_stops hs]
  rfl

/-- `_consume_value` on two non-flag tokens followed by a run stop:
the two words are joined with one space and three tokens are counted
(the flag plus its two value words). -/
theorem consume_value_two (v₁ v₂ : String) (rest : List String)
    (h1 : isFlagLike v₁ = false) (h2 : isFlagLike v₂ = false)
    (hs : stopsRun rest = true) :
    consume_value (v₁ :: v₂ :: rest) 0 = (some (v₁ ++ " " ++ v₂), 3) := by
  unfold consume_value
  rw [if_neg (by simp)]
  rw [List.drop_zero]
  unfold consumeRun
  rw [if_neg (by simp [h1])]
  unfold consumeRun
  rw [if_neg (by simp [h2]), consumeRun_stops hs]
  rfl

theorem two_words_ne_empty (v₁ v₂ : String) : v₁ ++ " " ++ v₂ ≠ "" := by
  intro h
  have h2 := congrArg String.length h
  rw [String.length_append, String.length_append] at h2
  have e1 : (" " : String).length = 1 := rfl
  have e0 : ("" : String).length = 0 := rfl
  omega

theorem not_flagLike_ne (v s : String) (hv : isFlagLike v = false)
    (hs : isFlagLike s = true) : v ≠ s :=
  fun h => by rw [h, hs] at hv; exact Bool.noConfusion hv

/-- A token that is not flag-like matches none of the chat grammar's
flag literals, so it falls to the unknown-flag branch. -/
theorem stepChat_unknown (v : String) (rest : List String) (cmd : ChatCommand)
    (hv : isFlagLike v = false) :
    stepChat v rest cmd =
      (rest, { cmd with errors := cmd.errors ++ ["Unknown flag: " ++ v] }) := by
  unfold stepChat
  rw [if_neg (fun hor => hor.elim
        (fun h => not_flagLike_ne v "--llm" hv (by decide) h)
        (fun h => not_flagLike_ne v "-l" hv (by decide) h)),
      if_neg (fun hor => hor.elim
        (fun h => not_flagLike_ne v "--model" hv (by decide) h)
        (fun h => not_flagLike_ne v "-m" hv (by decide) h)),
      if_neg (fun hor => hor.elim
        (fun h => not_flagLike_ne v "--prompt" hv (by decide) h)
        (fun h => not_flagLike_ne v "-p" hv (by decide) h)),
      if_neg (fun hor => hor.elim
        (fun h => not_flagLike_ne v "--send" hv (by decide) h)
        (fun h => not_flagLike_ne v "-s" hv (by decide) h)),
      if_neg (not_flagLike_ne v "--models" hv (by decide)),
      if_neg (fun hor => hor.elim
        (fun h => not_flagLike_ne v "--status" hv (by decide) h)
        (fun h => not_flagLike_ne v "-st" hv (by decide) h)),
      if_neg (fun hor => hor.elim
        (fun h => not_flagLike_ne v "--clear" hv (by decide) h)
        (fun h => not_flagLike_ne v "-c" hv (by decide) h)),
      if_neg (not_flagLike_ne v "--listen" hv (by decide))]

/-- One unfolding of the chat token loop. -/
theorem chatLoop_step (t : String) (rest : List String) (cmd : ChatCommand) :
    chatLoop (t :: rest) cmd = chatLoop (stepChat t rest cmd).1 (stepChat t rest cmd).2 :=
  runF_fuel stepChat stepChat_le rest.length _ _ _ (stepChat_le t rest cmd) (le_refl _)

/-- One unfolding of the music token loop. -/
theorem musicLoop_step (t : String) (rest : List String) (cmd : MusicCommand) :
    musicLoop (t :: rest) cmd = musicLoop (stepMusic t rest cmd).1 (stepMusic t rest cmd).2 :=
  runF_fuel stepMusic stepMusic_le rest.length _ _ _ (stepMusic_le t rest cmd) (le_refl _)

/-- One unfolding of the reminder token loop. -/
theorem remLoop_step (t : String) (rest : List String) (st : RemState) :
    remLoop (t :: rest) st = remLoop (stepRem t rest st).1 (stepRem t rest st).2 :=
  runF_fuel stepRem stepRem_le rest.length _ _ _ (stepRem_le t rest st) (le_refl _)

/-- One unfolding of the clip token loop. -/
theorem clipLoop_step (t : String) (rest : List String) (cmd : ClipCommand) :
    clipLoop (t :: rest) cmd = clipLoop (stepClip t rest cmd).1 (stepClip t rest cmd).2 :=
  runF_fuel stepClip stepClip_le rest.length _ _ _ (stepClip_le t rest cmd) (le_refl _)

/-- Processing a line whose final token is a flag-like token `f`, after
a prefix that produced no error, equals processing the prefix and then
`f`'s own step with nothing following (chat grammar). -/
theorem chatLoop_append {f : String} (hf : isFlagLike f = true)
    (p : List String) (cmd : ChatCommand)
    (h : (chatLoop p cmd).errors = cmd.errors) :
    chatLoop (p ++ [f]) cmd = (stepChat f [] (chatLoop p cmd)).2 := by
  unfold chatLoop
  rw [show (p ++ [f]).length = p.length + 1 by simp]
  exact runF_append stepChat ChatCommand.errors stepChat_le stepChat_mono f
    (fun t rest st => Or.inl (stepChat_stable hf t rest st)) p.length p cmd
    (le_refl _) h

/-- As `chatLoop_append`, for the music grammar. -/
theorem musicLoop_append {f : String} (hf : isFlagLike f = true)
    (p : List String) (cmd : MusicCommand)
    (h : (musicLoop p cmd).errors = cmd.errors) :
    musicLoop (p ++ [f]) cmd = (stepMusic f [] (musicLoop p cmd)).2 := by
  unfold musicLoop
  rw [show (p ++ [f]).length = p.length + 1 by simp]
  exact runF_append stepMusic MusicCommand.errors stepMusic_le stepMusic_mono f
    (fun t rest st => Or.inl (stepMusic_stable hf t rest st)) p.length p cmd
    (le_refl _) h

/-- As `chatLoop_append`, for the wolfram grammar. -/
theorem wolframLoop_append {f : String} (hf : isFlagLike f = true)
    (p : List String) (cmd : SearchCommand)
    (h : (wolframLoop p cmd).errors = cmd.errors) :
    wolframLoop (p ++ [f]) cmd = (stepWolfram f [] (wolframLoop p cmd)).2 := by
  unfold wolframLoop
  rw [show (p ++ [f]).length = p.length + 1 by simp]
  exact runF_append stepWolfram SearchCommand.errors stepWolfram_le stepWolfram_mono f
    (fun t rest st => Or.inl (stepWolfram_stable hf t rest st)) p.length p cmd
    (le_refl _) h

/-- As `chatLoop_append`, for the google grammar. -/
theorem googleLoop_append {f : String} (hf : isFlagLike f = true)
    (p : List String) (cmd : SearchCommand)
    (h : (googleLoop p cmd).errors = cmd.errors) :
    googleLoop (p ++ [f]) cmd = (stepGoogle f [] (googleLoop p cmd)).2 := by
  unfold googleLoop
  rw [show (p ++ [f]).length = p.length + 1 by simp]
  exact runF_append stepGoogle SearchCommand.errors stepGoogle_le stepGoogle_mono f
    (fun t rest st => Or.inl (stepGoogle_stable hf t rest st)) p.length p cmd
    (le_refl _) h

/-- As `chatLoop_append`, for the reminder grammar. -/
theorem remLoop_append {f : String} (hf : isFlagLike f = true)
    (p : List String) (st : RemState)
    (h : (remLoop p st).errors = st.errors) :
    remLoop (p ++ [f]) st = (stepRem f [] (remLoop p st)).2 := by
  unfold remLoop
  rw [show (p ++ [f]).length = p.length + 1 by simp]
  exact runF_append stepRem RemState.errors stepRem_le stepRem_mono f
    (fun t rest st => Or.inl (stepRem_stable hf t rest st)) p.length p st
    (le_refl _) h

/-- As `chatLoop_append`, for the clip grammar (whose value flags can
swallow a following flag token, so the error-free hypothesis is what
rules that out). -/
theorem clipLoop_append {f : String} (hf : isFlagLike f = true)
    (p : List String) (cmd : ClipCommand)
    (h : (clipLoop p cmd).errors = cmd.errors) :
    clipLoop (p ++ [f]) cmd = (stepClip f [] (clipLoop p cmd)).2 := by
  unfold clipLoop
  rw [show (p ++ [f]).length = p.length + 1 by simp]
  exact runF_append stepClip ClipCommand.errors stepClip_le stepClip_mono f
    (stepClip_stable_or hf) p.length p cmd (le_refl _) h

theorem collectUrls_stops {rest : List String} (h : stopsRun rest = true) :
    collectUrls rest = ([], rest) := by
  cases rest with
  | nil => rfl
  | cons t r =>
      unfold collectUrls
      rw [if_pos (by exact h)]

/-! ## Claims -/

/-- C1.  `_tokenize` implements the character-level state machine the
spec describes (backslash escapes only inside quotes and only before a
quote or backslash; an opening quote is not appended; the matching
quote closes the region and flushes even an empty buffer; a differing
quote passes through; whitespace outside quotes separates tokens; the
final non-empty buffer is flushed), and on the concrete escaped-quote
example it produces exactly the two expected tokens. -/
theorem tokenize_implements_spec_machine :
    (∀ s : String, tokenize s = tokenizeSpec s) ∧
    tokenize "--send \"He said \\\"hi\\\" to me\"" = ["--send", "He said \"hi\" to me"] :=
  ⟨tokenize_eq_tokenizeSpec, by decide⟩

/-- C2.  `_consume_value ts k` returns `(none, 1)` when `k` is out of
range; otherwise, with `run` the maximal leading run of non-flag-like
tokens of `ts.drop k`, it returns `(none, 1)` when the run is empty and
otherwise the run joined by single spaces with consumed count
`run.length + 1`; the consumed count is always at least 1. -/
theorem consume_value_characterization :
    ∀ (ts : List String) (k : Nat),
      (consume_value ts k =
        if ts.length ≤ k then ((none : Option String), 1)
        else if (ts.drop k).takeWhile (fun t => !(isFlagLike t)) = [] then
          ((none : Option String), 1)
        else
          (some (joinSpace ((ts.drop k).takeWhile (fun t => !(isFlagLike t)))),
           ((ts.drop k).takeWhile (fun t => !(isFlagLike t))).length + 1)) ∧
      1 ≤ (consume_value ts k).2 := by
  intro ts k
  constructor
  · unfold consume_value
    by_cases hk : ts.length ≤ k
    · rw [if_pos hk, if_pos hk]
    · rw [if_neg hk, if_neg hk, consumeRun_eq]
      dsimp only
      by_cases hrun : (ts.drop k).takeWhile (fun t => !(isFlagLike t)) = []
      · rw [if_pos (by rw [hrun]; rfl), if_pos hrun]
      · rw [if_neg (fun hh => hrun (List.isEmpty_iff.mp hh)), if_neg hrun]
  · unfold consume_value
    by_cases hk : ts.length ≤ k
    · rw [if_pos hk]
    · rw [if_neg hk, consumeRun_eq]
      dsimp only
      split_ifs
      · exact Nat.le_refl _
      · exact Nat.succ_le_succ (Nat.zero_le _)

/-- C3.  The parsing subsystem is claimed never to raise on malformed
user input, but `parse_reminder_command` evaluates
`float(value.split()[0])` and the subscript raises an uncaught
`IndexError` when the space-joined `--time` value is truthy yet
whitespace-only, as two empty quoted tokens produce. -/
theorem reminder_whitespace_value_raises :
    parse_reminder_command "$remindMeIn -t \"\" \"\"" = Except.error PyError.indexError := by
  decide

/-- C4 counterexample.  A clip value flag does not space-join several
bare words: `--start 5 6` stores only `5` and reports `6` as an
unknown flag, instead of the claimed single value `5 6`. -/
theorem clip_start_not_space_joined :
    (parse_clip_command "$clip --start 5 6").starts = ["5"] ∧
    (parse_clip_command "$clip --start 5 6").errors = ["Unknown flag: 6"] ∧
    (parse_clip_command "$clip --start 5 6").starts ≠ ["5 6"] := by
  decide

/-- A space-joined two-word value always contains a space. -/
theorem two_words_has_space (v₁ v₂ : String) : ' ' ∈ (v₁ ++ " " ++ v₂).data := by
  show ' ' ∈ (v₁.data ++ [' ']) ++ v₂.data
  exact List.mem_append.mpr (Or.inl (List.mem_append.mpr (Or.inr (List.mem_singleton.mpr rfl))))

/-- A space-joined two-word value never equals a space-free literal. -/
theorem two_words_ne_nospace (v₁ v₂ s : String) (h : ' ' ∉ s.data) :
    v₁ ++ " " ++ v₂ ≠ s :=
  fun he => h (he ▸ two_words_has_space v₁ v₂)

/-- A space-joined two-word value never satisfies `str.isdigit()`. -/
theorem two_words_not_digit (v₁ v₂ : String) :
    pyStrIsDigit (v₁ ++ " " ++ v₂) = false := by
  unfold pyStrIsDigit
  cases h : (v₁ ++ " " ++ v₂).data.all Char.isDigit with
  | false => rw [Bool.and_false]
  | true =>
      have hd := List.all_eq_true.mp h ' ' (two_words_has_space v₁ v₂)
      exact absurd hd (by decide)

/-- The lower-casing of a space-joined two-word value never equals a
space-free literal (`asciiLower` fixes the space). -/
theorem pyLower_two_words_ne (v₁ v₂ s : String) (h : ' ' ∉ s.data) :
    pyLower (v₁ ++ " " ++ v₂) ≠ s := by
  intro he
  apply h
  rw [← he]
  show ' ' ∈ (v₁ ++ " " ++ v₂).data.map asciiLower
  exact List.mem_map.mpr ⟨' ', two_words_has_space v₁ v₂, by decide⟩

/-- One unfolding of the wolfram token loop. -/
theorem wolframLoop_step (t : String) (rest : List String) (cmd : SearchCommand) :
    wolframLoop (t :: rest) cmd = wolframLoop (stepWolfram t rest cmd).1 (stepWolfram t rest cmd).2 :=
  runF_fuel stepWolfram stepWolfram_le rest.length _ _ _ (stepWolfram_le t rest cmd) (le_refl _)

/-- One unfolding of the google token loop. -/
theorem googleLoop_step (t : String) (rest : List String) (cmd : SearchCommand) :
    googleLoop (t :: rest) cmd = googleLoop (stepGoogle t rest cmd).1 (stepGoogle t rest cmd).2 :=
  runF_fuel stepGoogle stepGoogle_le rest.length _ _ _ (stepGoogle_le t rest cmd) (le_refl _)

/-- C4 amended.  Every value flag of the chat, wolfram, google and
reminder grammars reads its argument through the shared
value-consumption protocol, so two bare words after the flag are
space-joined into one logical value for that flag: `--llm` lower-cases
the joined value, `--model`, `--send`, `--query`/`--search` and
`--message` store it, `--prompt` tests the joined value as its action
(a two-word value is never `list`/`show`/`set`/digits, so it is
reported whole as an invalid action), `--listen` tests the joined
value against `on`/`off` (a two-word value never matches, so the pair
is rejected and only the flag is skipped), and `--time` splits the
joined value and number-parses its first word.  The music
`--youtube`/`-y` flag instead collects each following non-flag token
as a separate URL list entry, and each clip value flag takes exactly
the single next token. -/
theorem value_reading_mechanisms :
    (∀ (cmd : ChatCommand) (f v₁ v₂ : String) (rest : List String),
      f = "--llm" ∨ f = "-l" →
      isFlagLike v₁ = false → isFlagLike v₂ = false → stopsRun rest = true →
      chatLoop (f :: v₁ :: v₂ :: rest) cmd =
        chatLoop rest { cmd with llm := some (pyLower (v₁ ++ " " ++ v₂)) }) ∧
    (∀ (cmd : ChatCommand) (f v₁ v₂ : String) (rest : List String),
      f = "--model" ∨ f = "-m" →
      isFlagLike v₁ = false → isFlagLike v₂ = false → stopsRun rest = true →
      chatLoop (f :: v₁ :: v₂ :: rest) cmd =
        chatLoop rest { cmd with model := some (v₁ ++ " " ++ v₂) }) ∧
    (∀ (cmd : ChatCommand) (f v₁ v₂ : String) (rest : List String),
      f = "--prompt" ∨ f = "-p" →
      isFlagLike v₁ = false → isFlagLike v₂ = false → stopsRun rest = true →
      chatLoop (f :: v₁ :: v₂ :: rest) cmd =
        chatLoop rest { cmd with errors :=
          cmd.errors ++ ["Invalid prompt action: " ++ (v₁ ++ " " ++ v₂)] }) ∧
    (∀ (cmd : ChatCommand) (f v₁ v₂ : String) (rest : List String),
      f = "--send" ∨ f = "-s" →
      isFlagLike v₁ = false → isFlagLike v₂ = false → stopsRun rest = true →
      chatLoop (f :: v₁ :: v₂ :: rest) cmd =
        chatLoop rest { cmd with message := some (v₁ ++ " " ++ v₂) }) ∧
    (∀ (cmd : ChatCommand) (v₁ v₂ : String) (rest : List String),
      isFlagLike v₁ = false → isFlagLike v₂ = false → stopsRun rest = true →
      chatLoop ("--listen" :: v₁ :: v₂ :: rest) cmd =
        chatLoop (v₁ :: v₂ :: rest) { cmd with errors :=
          cmd.errors ++ ["--listen requires 'on' or 'off'"] }) ∧
    (∀ (cmd : SearchCommand) (f v₁ v₂ : String) (rest : List String),
      f = "--query" ∨ f = "-q" →
      isFlagLike v₁ = false → isFlagLike v₂ = false → stopsRun rest = true →
      wolframLoop (f :: v₁ :: v₂ :: rest) cmd =
        wolframLoop rest { cmd with query := some (v₁ ++ " " ++ v₂) }) ∧
    (∀ (cmd : SearchCommand) (f v₁ v₂ : String) (rest : List String),
      f = "--search" ∨ f = "-s" ∨ f = "--query" ∨ f = "-q" →
      isFlagLike v₁ = false → isFlagLike v₂ = false → stopsRun rest = true →
      googleLoop (f :: v₁ :: v₂ :: rest) cmd =
        googleLoop rest { cmd with query := some (v₁ ++ " " ++ v₂) }) ∧
    (∀ (st : RemState) (f v₁ v₂ w : String) (ws rest : List String),
      f = "--time" ∨ f = "-t" → st.exn = false →
      isFlagLike v₁ = false → isFlagLike v₂ = false → stopsRun rest = true →
      pySplitWs (v₁ ++ " " ++ v₂) = w :: ws →
      remLoop (f :: v₁ :: v₂ :: rest) st =
        remLoop rest (if pyFloatValid w then { st with minutes := some w }
          else { st with errors := st.errors ++ ["--time requires a number"] })) ∧
    (∀ (st : RemState) (f v₁ v₂ : String) (rest : List String),
      f = "--message" ∨ f = "-m" → st.exn = false →
      isFlagLike v₁ = false → isFlagLike v₂ = false → stopsRun rest = true →
      remLoop (f :: v₁ :: v₂ :: rest) st =
        remLoop rest { st with message := some (v₁ ++ " " ++ v₂) }) ∧
    (∀ (cmd : MusicCommand) (f v₁ v₂ : String) (rest : List String),
      f = "--youtube" ∨ f = "-y" →
      isFlagLike v₁ = false → isFlagLike v₂ = false → stopsRun rest = true →
      musicLoop (f :: v₁ :: v₂ :: rest) cmd =
        musicLoop rest { cmd with action := some "youtube",
                                  youtube_urls := cmd.youtube_urls ++ [v₁, v₂] }) ∧
    (∀ (cmd : ClipCommand) (f v : String) (rest : List String),
      f = "--url" ∨ f = "-u" →
      clipLoop (f :: v :: rest) cmd = clipLoop rest { cmd with urls := cmd.urls ++ [v] }) ∧
    (∀ (cmd : ClipCommand) (f v : String) (rest : List String),
      f = "--start" ∨ f = "-s" →
      clipLoop (f :: v :: rest) cmd = clipLoop rest { cmd with starts := cmd.starts ++ [v] }) ∧
    (∀ (cmd : ClipCommand) (f v : String) (rest : List String),
      f = "--end" ∨ f = "-e" →
      clipLoop (f :: v :: rest) cmd = clipLoop rest { cmd with ends := cmd.ends ++ [v] }) ∧
    (∀ (cmd : ClipCommand) (f v : String) (rest : List String),
      f = "--resolution" ∨ f = "-r" →
      clipLoop (f :: v :: rest) cmd = clipLoop rest { cmd with resolution := some v }) ∧
    (∀ (cmd : ClipCommand) (f v : String) (rest : List String),
      f = "--bitrate" ∨ f = "-b" →
      clipLoop (f :: v :: rest) cmd = clipLoop rest { cmd with bitrate := some v }) ∧
    (∀ (cmd : ClipCommand) (f v : String) (rest : List String),
      f = "--format" ∨ f = "-f" →
      clipLoop (f :: v :: rest) cmd = clipLoop rest { cmd with output_format := some v }) := by
  refine ⟨?_, ?_, ?_, ?_, ?_, ?_, ?_, ?_, ?_, ?_, ?_, ?_, ?_, ?_, ?_, ?_⟩
  · intro cmd f v₁ v₂ rest hf h1 h2 hs
    rcases hf with rfl | rfl
    · rw [chatLoop_step,
          show stepChat "--llm" (v₁ :: v₂ :: rest) cmd
            = simpleValueStep (v₁ :: v₂ :: rest) (fun v => { cmd with llm := some (pyLower v) })
                { cmd with errors := cmd.errors ++ ["--llm requires a value (chatgpt/gemini/deepseek)"] } from rfl]
      unfold simpleValueStep consumeStep
      rw [consume_value_two v₁ v₂ rest h1 h2 hs]
      dsimp only
      rw [if_neg (two_words_ne_empty v₁ v₂)]
      rfl
    · rw [chatLoop_step,
          show stepChat "-l" (v₁ :: v₂ :: rest) cmd
            = simpleValueStep (v₁ :: v₂ :: rest) (fun v => { cmd with llm := some (pyLower v) })
                { cmd with errors := cmd.errors ++ ["--llm requires a value (chatgpt/gemini/deepseek)"] } from rfl]
      unfold simpleValueStep consumeStep
      rw [consume_value_two v₁ v₂ rest h1 h2 hs]
      dsimp only
      rw [if_neg (two_words_ne_empty v₁ v₂)]
      rfl
  · intro cmd f v₁ v₂ rest hf h1 h2 hs
    rcases hf with rfl | rfl
    · rw [chatLoop_step,
          show stepChat "--model" (v₁ :: v₂ :: rest) cmd
            = simpleValueStep (v₁ :: v₂ :: rest) (fun v => { cmd with model := some v })
                { cmd with errors := cmd.errors ++ ["--model requires a model name"] } from rfl]
      unfold simpleValueStep consumeStep
      rw [consume_value_two v₁ v₂ rest h1 h2 hs]
      dsimp only
      rw [if_neg (two_words_ne_empty v₁ v₂)]
      rfl
    · rw [chatLoop_step,
          show stepChat "-m" (v₁ :: v₂ :: rest) cmd
            = simpleValueStep (v₁ :: v₂ :: rest) (fun v => { cmd with model := some v })
                { cmd with errors := cmd.errors ++ ["--model requires a model name"] } from rfl]
      unfold simpleValueStep consumeStep
      rw [consume_value_two v₁ v₂ rest h1 h2 hs]
      dsimp only
      rw [if_neg (two_words_ne_empty v₁ v₂)]
      rfl
  · intro cmd f v₁ v₂ rest hf h1 h2 hs
    rcases hf with rfl | rfl
    · rw [chatLoop_step,
          show stepChat "--prompt" (v₁ :: v₂ :: rest) cmd
            = chatPromptStep (v₁ :: v₂ :: rest) cmd from rfl]
      unfold chatPromptStep consumeStep
      rw [consume_value_two v₁ v₂ rest h1 h2 hs]
      dsimp only
      rw [if_neg (two_words_ne_empty v₁ v₂),
          if_neg (fun hor => hor.elim
            (two_words_ne_nospace v₁ v₂ "list" (by decide))
            (two_words_ne_nospace v₁ v₂ "show" (by decide))),
          if_neg (two_words_ne_nospace v₁ v₂ "set" (by decide)),
          if_neg (fun hh => by
            rw [two_words_not_digit v₁ v₂] at hh; exact Bool.noConfusion hh)]
      rfl
    · rw [chatLoop_step,
          show stepChat "-p" (v₁ :: v₂ :: rest) cmd
            = chatPromptStep (v₁ :: v₂ :: rest) cmd from rfl]
      unfold chatPromptStep consumeStep
      rw [consume_value_two v₁ v₂ rest h1 h2 hs]
      dsimp only
      rw [if_neg (two_words_ne_empty v₁ v₂),
          if_neg (fun hor => hor.elim
            (two_words_ne_nospace v₁ v₂ "list" (by decide))
            (two_words_ne_nospace v₁ v₂ "show" (by decide))),
          if_neg (two_words_ne_nospace v₁ v₂ "set" (by decide)),
          if_neg (fun hh => by
            rw [two_words_not_digit v₁ v₂] at hh; exact Bool.noConfusion hh)]
      rfl
  · intro cmd f v₁ v₂ rest hf h1 h2 hs
    rcases hf with rfl | rfl
    · rw [chatLoop_step,
          show stepChat "--send" (v₁ :: v₂ :: rest) cmd
            = simpleValueStep (v₁ :: v₂ :: rest) (fun v => { cmd with message := some v })
                { cmd with errors := cmd.errors ++ ["--send requires a message"] } from rfl]
      unfold simpleValueStep consumeStep
      rw [consume_value_two v₁ v₂ rest h1 h2 hs]
      dsimp only
      rw [if_neg (two_words_ne_empty v₁ v₂)]
      rfl
    · rw [chatLoop_step,
          show stepChat "-s" (v₁ :: v₂ :: rest) cmd
            = simpleValueStep (v₁ :: v₂ :: rest) (fun v => { cmd with message := some v })
                { cmd with errors := cmd.errors ++ ["--send requires a message"] } from rfl]
      unfold simpleValueStep consumeStep
      rw [consume_value_two v₁ v₂ rest h1 h2 hs]
      dsimp only
      rw [if_neg (two_words_ne_empty v₁ v₂)]
      rfl
  · intro cmd v₁ v₂ rest h1 h2 hs
    rw [chatLoop_step,
        show stepChat "--listen" (v₁ :: v₂ :: rest) cmd
          = chatListenStep (v₁ :: v₂ :: rest) cmd from rfl]
    unfold chatListenStep
    rw [consume_value_two v₁ v₂ rest h1 h2 hs]
    dsimp only
    rw [if_neg (fun hh => hh.2.elim
          (pyLower_two_words_ne v₁ v₂ "on" (by decide))
          (pyLower_two_words_ne v₁ v₂ "off" (by decide)))]
  · intro cmd f v₁ v₂ rest hf h1 h2 hs
    rcases hf with rfl | rfl
    · rw [wolframLoop_step,
          show stepWolfram "--query" (v₁ :: v₂ :: rest) cmd
            = simpleValueStep (v₁ :: v₂ :: rest) (fun v => { cmd with query := some v })
                { cmd with errors := cmd.errors ++ ["--query requires a search term"] } from rfl]
      unfold simpleValueStep consumeStep
      rw [consume_value_two v₁ v₂ rest h1 h2 hs]
      dsimp only
      rw [if_neg (two_words_ne_empty v₁ v₂)]
      rfl
    · rw [wolframLoop_step,
          show stepWolfram "-q" (v₁ :: v₂ :: rest) cmd
            = simpleValueStep (v₁ :: v₂ :: rest) (fun v => { cmd with query := some v })
                { cmd with errors := cmd.errors ++ ["--query requires a search term"] } from rfl]
      unfold simpleValueStep consumeStep
      rw [consume_value_two v₁ v₂ rest h1 h2 hs]
      dsimp only
      rw [if_neg (two_words_ne_empty v₁ v₂)]
      rfl
  · intro cmd f v₁ v₂ rest hf h1 h2 hs
    rcases hf with rfl | rfl | rfl | rfl
    · rw [googleLoop_step,
          show stepGoogle "--search" (v₁ :: v₂ :: rest) cmd
            = simpleValueStep (v₁ :: v₂ :: rest) (fun v => { cmd with query := some v })
                { cmd with errors := cmd.errors ++ ["--search requires a query"] } from rfl]
      unfold simpleValueStep consumeStep
      rw [consume_value_two v₁ v₂ rest h1 h2 hs]
      dsimp only
      rw [if_neg (two_words_ne_empty v₁ v₂)]
      rfl
    · rw [googleLoop_step,
          show stepGoogle "-s" (v₁ :: v₂ :: rest) cmd
            = simpleValueStep (v₁ :: v₂ :: rest) (fun v => { cmd with query := some v })
                { cmd with errors := cmd.errors ++ ["--search requires a query"] } from rfl]
      unfold simpleValueStep consumeStep
      rw [consume_value_two v₁ v₂ rest h1 h2 hs]
      dsimp only
      rw [if_neg (two_words_ne_empty v₁ v₂)]
      rfl
    · rw [googleLoop_step,
          show stepGoogle "--query" (v₁ :: v₂ :: rest) cmd
            = simpleValueStep (v₁ :: v₂ :: rest) (fun v => { cmd with query := some v })
                { cmd with errors := cmd.errors ++ ["--search requires a query"] } from rfl]
      unfold simpleValueStep consumeStep
      rw [consume_value_two v₁ v₂ rest h1 h2 hs]
      dsimp only
      rw [if_neg (two_words_ne_empty v₁ v₂)]
      rfl
    · rw [googleLoop_step,
          show stepGoogle "-q" (v₁ :: v₂ :: rest) cmd
            = simpleValueStep (v₁ :: v₂ :: rest) (fun v => { cmd with query := some v })
                { cmd with errors := cmd.errors ++ ["--search requires a query"] } from rfl]
      unfold simpleValueStep consumeStep
      rw [consume_value_two v₁ v₂ rest h1 h2 hs]
      dsimp only
      rw [if_neg (two_words_ne_empty v₁ v₂)]
      rfl
  · intro st f v₁ v₂ w ws rest hf hexn h1 h2 hs hsplit
    rcases hf with rfl | rfl
    · rw [remLoop_step]
      unfold stepRem
      rw [if_neg (fun hh => by rw [hexn] at hh; exact Bool.noConfusion hh),
          if_pos (show ("--time" : String) = "--time" ∨ ("--time" : String) = "-t" from Or.inl rfl)]
      unfold remTimeStep consumeStep
      rw [consume_value_two v₁ v₂ rest h1 h2 hs]
      dsimp only
      rw [if_neg (two_words_ne_empty v₁ v₂), hsplit]
      dsimp only
      by_cases hfw : pyFloatValid w = true
      · rw [if_pos hfw, if_pos hfw]
        rfl
      · rw [if_neg hfw, if_neg hfw]
        rfl
    · rw [remLoop_step]
      unfold stepRem
      rw [if_neg (fun hh => by rw [hexn] at hh; exact Bool.noConfusion hh),
          if_pos (show ("-t" : String) = "--time" ∨ ("-t" : String) = "-t" from Or.inr rfl)]
      unfold remTimeStep consumeStep
      rw [consume_value_two v₁ v₂ rest h1 h2 hs]
      dsimp only
      rw [if_neg (two_words_ne_empty v₁ v₂), hsplit]
      dsimp only
      by_cases hfw : pyFloatValid w = true
      · rw [if_pos hfw, if_pos hfw]
        rfl
      · rw [if_neg hfw, if_neg hfw]
        rfl
  · intro st f v₁ v₂ rest hf hexn h1 h2 hs
    rcases hf with rfl | rfl
    · rw [remLoop_step]
      unfold stepRem
      rw [if_neg (fun hh => by rw [hexn] at hh; exact Bool.noConfusion hh),
          if_neg (show ¬ (("--message" : String) = "--time" ∨ ("--message" : String) = "-t") from by decide),
          if_pos (show ("--message" : String) = "--message" ∨ ("--message" : String) = "-m" from Or.inl rfl)]
      unfold simpleValueStep consumeStep
      rw [consume_value_two v₁ v₂ rest h1 h2 hs]
      dsimp only
      rw [if_neg (two_words_ne_empty v₁ v₂)]
      rfl
    · rw [remLoop_step]
      unfold stepRem
      rw [if_neg (fun hh => by rw [hexn] at hh; exact Bool.noConfusion hh),
          if_neg (show ¬ (("-m" : String) = "--time" ∨ ("-m" : String) = "-t") from by decide),
          if_pos (show ("-m" : String) = "--message" ∨ ("-m" : String) = "-m" from Or.inr rfl)]
      unfold simpleValueStep consumeStep
      rw [consume_value_two v₁ v₂ rest h1 h2 hs]
      dsimp only
      rw [if_neg (two_words_ne_empty v₁ v₂)]
      rfl
  · intro cmd f v₁ v₂ rest hf h1 h2 hs
    rcases hf with rfl | rfl
    · rw [musicLoop_step,
          show stepMusic "--youtube" (v₁ :: v₂ :: rest) cmd
            = musicYoutubeStep (v₁ :: v₂ :: rest) cmd from rfl]
      unfold musicYoutubeStep collectUrls
      rw [if_neg (by simp [h1])]
      dsimp only
      unfold collectUrls
      rw [if_neg (by simp [h2])]
      dsimp only
      rw [collectUrls_stops hs]
      dsimp only
      rw [if_neg (by simp)]
    · rw [musicLoop_step,
          show stepMusic "-y" (v₁ :: v₂ :: rest) cmd
            = musicYoutubeStep (v₁ :: v₂ :: rest) cmd from rfl]
      unfold musicYoutubeStep collectUrls
      rw [if_neg (by simp [h1])]
      dsimp only
      unfold collectUrls
      rw [if_neg (by simp [h2])]
      dsimp only
      rw [collectUrls_stops hs]
      dsimp only
      rw [if_neg (by simp)]
  · intro cmd f v rest hf
    rcases hf with rfl | rfl <;> rw [clipLoop_step] <;> rfl
  · intro cmd f v rest hf
    rcases hf with rfl | rfl <;> rw [clipLoop_step] <;> rfl
  · intro cmd f v rest hf
    rcases hf with rfl | rfl <;> rw [clipLoop_step] <;> rfl
  · intro cmd f v rest hf
    rcases hf with rfl | rfl <;> rw [clipLoop_step] <;> rfl
  · intro cmd f v rest hf
    rcases hf with rfl | rfl <;> rw [clipLoop_step] <;> rfl
  · intro cmd f v rest hf
    rcases hf with rfl | rfl <;> rw [clipLoop_step] <;> rfl

/-- C4 amended, witnessed at concrete inputs. -/
theorem value_reading_mechanisms_witness :
    chatLoop ["--send", "hello", "world"] ({} : ChatCommand) =
      { message := some "hello world" } ∧
    musicLoop ["-y", "u1", "u2"] ({} : MusicCommand) =
      { action := some "youtube", youtube_urls := ["u1", "u2"] } ∧
    clipLoop ["--start", "5", "6"] ({} : ClipCommand) =
      { starts := ["5"], errors := ["Unknown flag: 6"] } := by
  refine ⟨?_, ?_, ?_⟩
  · exact (value_reading_mechanisms.2.2.2.1 {} "--send" "hello" "world" []
      (Or.inl rfl) (by decide) (by decide) (by decide)).trans (by decide)
  · exact (value_reading_mechanisms.2.2.2.2.2.2.2.2.2.1 {} "-y" "u1" "u2" []
      (Or.inr rfl) (by decide) (by decide) (by decide)).trans (by decide)
  · exact (value_reading_mechanisms.2.2.2.2.2.2.2.2.2.2.2.1 {} "--start" "5" ["6"]
      (Or.inl rfl)).trans (by decide)

/-- C5 counterexample.  On the bare prefix `$music` the music grammar
does not return its default action with zero errors: it returns the
error `No action specified`. -/
theorem music_bare_prefix_error :
    (parse_music_command "$music").errors = ["No action specified"] ∧
    (parse_music_command "$music").errors ≠ [] := by
  decide

/-- C5 amended.  On a line of whitespace and/or the bare prefix, the
chat grammar defaults to show-status and the reminder grammar to the
default five-minute reminder, each with zero errors; the music, db,
wolfram, google and clip grammars instead return no action and exactly
one error (`No action specified` / `No query provided` /
`No parameters provided`). -/
theorem bare_prefix_behaviour :
    (∀ s : String, pyStrip s = "" ∨ pyStrip s = "$chat" →
      parse_chat_command s = { show_status := true }) ∧
    (∀ s : String, pyStrip s = "" ∨ pyStrip s = "$music" →
      parse_music_command s = { errors := ["No action specified"] }) ∧
    (∀ s : String, pyStrip s = "" ∨ pyStrip s = "$wolfram" →
      parse_wolfram_command s = { errors := ["No query provided"] }) ∧
    (∀ s : String, pyStrip s = "" ∨ pyStrip s = "$google" →
      parse_google_command s = { errors := ["No query provided"] }) ∧
    (∀ s : String, pyStrip s = "" ∨ pyStrip s = "$db" →
      parse_db_command s = { errors := ["No action specified"] }) ∧
    (∀ s : String, pyStrip s = "" ∨ pyStrip s = "$remindMeIn" →
      parse_reminder_command s = Except.ok {}) ∧
    (∀ s : String, pyStrip s = "" ∨ pyStrip s = "$clip" →
      parse_clip_command s = { errors := ["No parameters provided"] }) := by
  refine ⟨?_, ?_, ?_, ?_, ?_, ?_, ?_⟩ <;>
    (intro s h; rcases h with h | h) <;>
    first
      | (unfold parse_chat_command; rw [h]; decide)
      | (unfold parse_music_command; rw [h]; decide)
      | (unfold parse_wolfram_command; rw [h]; decide)
      | (unfold parse_google_command; rw [h]; decide)
      | (unfold parse_db_command; rw [h]; decide)
      | (unfold parse_reminder_command; rw [h]; decide)
      | (unfold parse_clip_command; rw [h]; decide)

/-- C5 amended, witnessed at concrete whitespace-and-prefix lines. -/
theorem bare_prefix_behaviour_witness :
    parse_chat_command "  $chat  " = { show_status := true } ∧
    parse_music_command " $music" = { errors := ["No action specified"] } ∧
    parse_wolfram_command "$wolfram" = { errors := ["No query provided"] } ∧
    parse_google_command "   " = { errors := ["No query provided"] } ∧
    parse_db_command "$db " = { errors := ["No action specified"] } ∧
    parse_reminder_command " $remindMeIn " = Except.ok {} ∧
    parse_clip_command "$clip" = { errors := ["No parameters provided"] } :=
  ⟨bare_prefix_behaviour.1 _ (Or.inr (by decide)),
   bare_prefix_behaviour.2.1 _ (Or.inr (by decide)),
   bare_prefix_behaviour.2.2.1 _ (Or.inr (by decide)),
   bare_prefix_behaviour.2.2.2.1 _ (Or.inl (by decide)),
   bare_prefix_behaviour.2.2.2.2.1 _ (Or.inr (by decide)),
   bare_prefix_behaviour.2.2.2.2.2.1 _ (Or.inr (by decide)),
   bare_prefix_behaviour.2.2.2.2.2.2 _ (Or.inr (by decide))⟩

/-- The per-flag "missing value" message of the chat grammar. -/
def chatMissingMsg (f : String) : String :=
  if f = "--llm" ∨ f = "-l" then "--llm requires a value (chatgpt/gemini/deepseek)"
  else if f = "--model" ∨ f = "-m" then "--model requires a model name"
  else if f = "--prompt" ∨ f = "-p" then "--prompt requires an action (list/show/set/0-3)"
  else if f = "--send" ∨ f = "-s" then "--send requires a message"
  else "--listen requires 'on' or 'off'"

/-- The per-flag "missing value" message of the reminder grammar. -/
def remMissingMsg (f : String) : String :=
  if f = "--time" ∨ f = "-t" then "--time requires a value" else "--message requires text"

/-- The per-flag "missing value" message of the clip grammar. -/
def clipMissingMsg (f : String) : String :=
  if f = "--url" ∨ f = "-u" then "--url requires a URL"
  else if f = "--start" ∨ f = "-s" then "--start requires a time value"
  else if f = "--end" ∨ f = "-e" then "--end requires a time value"
  else if f = "--resolution" ∨ f = "-r" then "--resolution requires a value"
  else if f = "--fps" then "--fps requires a value"
  else if f = "--bitrate" ∨ f = "-b" then "--bitrate requires a value"
  else if f = "--format" ∨ f = "-f" then "--format requires a value"
  else if f = "--clip" then "--clip requires an index"
  else "--skip requires an index"

/-- `simpleValueStep` on an exhausted token list returns the error command. -/
theorem simpleValueStep_nil {C : Type} (set : String → C) (errcmd : C) :
    simpleValueStep [] set errcmd = ([], errcmd) := rfl

/-- C6 counterexample.  A value-requiring flag as the final token does
not always yield an error: after an earlier `-y` that supplied a URL, a
final bare `-y` appends no error at all (the check tests the whole
accumulated URL list). -/
theorem music_final_youtube_zero_errors :
    (parse_music_command "$music -y u -y").errors = [] ∧
    (parse_music_command "$music -y u -y").youtube_urls = ["u"] ∧
    (parse_music_command "$music -y u -y").errors ≠ ["--youtube requires at least one URL"] := by
  decide

/-- C6 amended.  For every grammar and every value-requiring flag, a
final occurrence of the flag after an error-free prefix (for the
reminder grammar: also a non-raising prefix) leaves every field of the
accumulated command unchanged and appends exactly the one error naming
that flag — except the music grammar's `--youtube`/`-y`, which also
sets the action and appends its error only when the accumulated URL
list is still empty. -/
theorem final_value_flag_behaviour :
    (∀ (f : String) (p : List String), f = "--llm" ∨ f = "-l" ∨ f = "--model" ∨ f = "-m" ∨ f = "--prompt" ∨ f = "-p" ∨ f = "--send" ∨ f = "-s" ∨ f = "--listen" →
      (chatLoop p ({} : ChatCommand)).errors = [] →
      chatLoop (p ++ [f]) ({} : ChatCommand) =
        { chatLoop p ({} : ChatCommand) with errors := [chatMissingMsg f] }) ∧
    (∀ (f : String) (p : List String), f = "--query" ∨ f = "-q" →
      (wolframLoop p ({} : SearchCommand)).errors = [] →
      wolframLoop (p ++ [f]) ({} : SearchCommand) =
        { wolframLoop p ({} : SearchCommand) with errors := ["--query requires a search term"] }) ∧
    (∀ (f : String) (p : List String), f = "--search" ∨ f = "-s" ∨ f = "--query" ∨ f = "-q" →
      (googleLoop p ({} : SearchCommand)).errors = [] →
      googleLoop (p ++ [f]) ({} : SearchCommand) =
        { googleLoop p ({} : SearchCommand) with errors := ["--search requires a query"] }) ∧
    (∀ (f : String) (p : List String), f = "--time" ∨ f = "-t" ∨ f = "--message" ∨ f = "-m" →
      (remLoop p ({} : RemState)).errors = [] →
      (remLoop p ({} : RemState)).exn = false →
      remLoop (p ++ [f]) ({} : RemState) =
        { remLoop p ({} : RemState) with errors := [remMissingMsg f] }) ∧
    (∀ (f : String) (p : List String), f = "--url" ∨ f = "-u" ∨ f = "--start" ∨ f = "-s" ∨ f = "--end" ∨ f = "-e" ∨ f = "--resolution" ∨ f = "-r" ∨ f = "--fps" ∨ f = "--bitrate" ∨ f = "-b" ∨ f = "--format" ∨ f = "-f" ∨ f = "--clip" ∨ f = "--skip" →
      (clipLoop p ({} : ClipCommand)).errors = [] →
      clipLoop (p ++ [f]) ({} : ClipCommand) =
        { clipLoop p ({} : ClipCommand) with errors := [clipMissingMsg f] }) ∧
    (∀ (f : String) (p : List String), f = "--youtube" ∨ f = "-y" →
      (musicLoop p ({} : MusicCommand)).errors = [] →
      ((musicLoop p ({} : MusicCommand)).youtube_urls = [] →
        musicLoop (p ++ [f]) ({} : MusicCommand) =
          { musicLoop p ({} : MusicCommand) with
            action := some "youtube",
            errors := ["--youtube requires at least one URL"] }) ∧
      ((musicLoop p ({} : MusicCommand)).youtube_urls ≠ [] →
        musicLoop (p ++ [f]) ({} : MusicCommand) =
          { musicLoop p ({} : MusicCommand) with action := some "youtube" })) := by
  refine ⟨?_, ?_, ?_, ?_, ?_, ?_⟩
  · intro f p hf herr
    rcases hf with rfl | rfl | rfl | rfl | rfl | rfl | rfl | rfl | rfl
    · rw [chatLoop_append (by decide) p ({} : ChatCommand) (by simp [herr]),
          show (stepChat "--llm" [] (chatLoop p ({} : ChatCommand))).2
            = { chatLoop p ({} : ChatCommand) with errors :=
                (chatLoop p ({} : ChatCommand)).errors ++ ["--llm requires a value (chatgpt/gemini/deepseek)"] } from rfl,
          herr] <;> rfl
    · rw [chatLoop_append (by decide) p ({} : ChatCommand) (by simp [herr]),
          show (stepChat "-l" [] (chatLoop p ({} : ChatCommand))).2
            = { chatLoop p ({} : ChatCommand) with errors :=
                (chatLoop p ({} : ChatCommand)).errors ++ ["--llm requires a value (chatgpt/gemini/deepseek)"] } from rfl,
          herr] <;> rfl
    · rw [chatLoop_append (by decide) p ({} : ChatCommand) (by simp [herr]),
          show (stepChat "--model" [] (chatLoop p ({} : ChatCommand))).2
            = { chatLoop p ({} : ChatCommand) with errors :=
                (chatLoop p ({} : ChatCommand)).errors ++ ["--model requires a model name"] } from rfl,
          herr] <;> rfl
    · rw [chatLoop_append (by decide) p ({} : ChatCommand) (by simp [herr]),
          show (stepChat "-m" [] (chatLoop p ({} : ChatCommand))).2
            = { chatLoop p ({} : ChatCommand) with errors :=
                (chatLoop p ({} : ChatCommand)).errors ++ ["--model requires a model name"] } from rfl,
          herr] <;> rfl
    · rw [chatLoop_append (by decide) p ({} : ChatCommand) (by simp [herr]),
          show (stepChat "--prompt" [] (chatLoop p ({} : ChatCommand))).2
            = { chatLoop p ({} : ChatCommand) with errors :=
                (chatLoop p ({} : ChatCommand)).errors ++ ["--prompt requires an action (list/show/set/0-3)"] } from rfl,
          herr] <;> rfl
    · rw [chatLoop_append (by decide) p ({} : ChatCommand) (by simp [herr]),
          show (stepChat "-p" [] (chatLoop p ({} : ChatCommand))).2
            = { chatLoop p ({} : ChatCommand) with errors :=
                (chatLoop p ({} : ChatCommand)).errors ++ ["--prompt requires an action (list/show/set/0-3)"] } from rfl,
          herr] <;> rfl
    · rw [chatLoop_append (by decide) p ({} : ChatCommand) (by simp [herr]),
          show (stepChat "--send" [] (chatLoop p ({} : ChatCommand))).2
            = { chatLoop p ({} : ChatCommand) with errors :=
                (chatLoop p ({} : ChatCommand)).errors ++ ["--send requires a message"] } from rfl,
          herr] <;> rfl
    · rw [chatLoop_append (by decide) p ({} : ChatCommand) (by simp [herr]),
          show (stepChat "-s" [] (chatLoop p ({} : ChatCommand))).2
            = { chatLoop p ({} : ChatCommand) with errors :=
                (chatLoop p ({} : ChatCommand)).errors ++ ["--send requires a message"] } from rfl,
          herr] <;> rfl
    · rw [chatLoop_append (by decide) p ({} : ChatCommand) (by simp [herr]),
          show (stepChat "--listen" [] (chatLoop p ({} : ChatCommand))).2
            = { chatLoop p ({} : ChatCommand) with errors :=
                (chatLoop p ({} : ChatCommand)).errors ++ ["--listen requires 'on' or 'off'"] } from rfl,
          herr] <;> rfl
  · intro f p hf herr
    rcases hf with rfl | rfl
    · rw [wolframLoop_append (by decide) p ({} : SearchCommand) (by simp [herr]),
          show (stepWolfram "--query" [] (wolframLoop p ({} : SearchCommand))).2
            = { wolframLoop p ({} : SearchCommand) with errors :=
                (wolframLoop p ({} : SearchCommand)).errors ++ ["--query requires a search term"] } from rfl,
          herr] <;> rfl
    · rw [wolframLoop_append (by decide) p ({} : SearchCommand) (by simp [herr]),
          show (stepWolfram "-q" [] (wolframLoop p ({} : SearchCommand))).2
            = { wolframLoop p ({} : SearchCommand) with errors :=
                (wolframLoop p ({} : SearchCommand)).errors ++ ["--query requires a search term"] } from rfl,
          herr] <;> rfl
  · intro f p hf herr
    rcases hf with rfl | rfl | rfl | rfl
    · rw [googleLoop_append (by decide) p ({} : SearchCommand) (by simp [herr]),
          show (stepGoogle "--search" [] (googleLoop p ({} : SearchCommand))).2
            = { googleLoop p ({} : SearchCommand) with errors :=
                (googleLoop p ({} : SearchCommand)).errors ++ ["--search requires a query"] } from rfl,
          herr] <;> rfl
    · rw [googleLoop_append (by decide) p ({} : SearchCommand) (by simp [herr]),
          show (stepGoogle "-s" [] (googleLoop p ({} : SearchCommand))).2
            = { googleLoop p ({} : SearchCommand) with errors :=
                (googleLoop p ({} : SearchCommand)).errors ++ ["--search requires a query"] } from rfl,
          herr] <;> rfl
    · rw [googleLoop_append (by decide) p ({} : SearchCommand) (by simp [herr]),
          show (stepGoogle "--query" [] (googleLoop p ({} : SearchCommand))).2
            = { googleLoop p ({} : SearchCommand) with errors :=
                (googleLoop p ({} : SearchCommand)).errors ++ ["--search requires a query"] } from rfl,
          herr] <;> rfl
    · rw [googleLoop_append (by decide) p ({} : SearchCommand) (by simp [herr]),
          show (stepGoogle "-q" [] (googleLoop p ({} : SearchCommand))).2
            = { googleLoop p ({} : SearchCommand) with errors :=
                (googleLoop p ({} : SearchCommand)).errors ++ ["--search requires a query"] } from rfl,
          herr] <;> rfl
  · intro f p hf herr hexn
    rcases hf with rfl | rfl | rfl | rfl
    · rw [remLoop_append (by decide) p ({} : RemState) (by simp [herr])]
      unfold stepRem
      rw [if_neg (show ¬ (remLoop p ({} : RemState)).exn = true from
            fun hh => by rw [hexn] at hh; exact Bool.noConfusion hh)]
      rw [if_pos (show ("--time" : String) = "--time" ∨ ("--time" : String) = "-t" from Or.inl rfl)]
      rw [show (remTimeStep [] (remLoop p ({} : RemState))).2
            = { remLoop p ({} : RemState) with errors :=
                (remLoop p ({} : RemState)).errors ++ ["--time requires a value"] } from rfl,
          herr] <;> rfl
    · rw [remLoop_append (by decide) p ({} : RemState) (by simp [herr])]
      unfold stepRem
      rw [if_neg (show ¬ (remLoop p ({} : RemState)).exn = true from
            fun hh => by rw [hexn] at hh; exact Bool.noConfusion hh)]
      rw [if_pos (show ("-t" : String) = "--time" ∨ ("-t" : String) = "-t" from Or.inr rfl)]
      rw [show (remTimeStep [] (remLoop p ({} : RemState))).2
            = { remLoop p ({} : RemState) with errors :=
                (remLoop p ({} : RemState)).errors ++ ["--time requires a value"] } from rfl,
          herr] <;> rfl
    · rw [remLoop_append (by decide) p ({} : RemState) (by simp [herr])]
      unfold stepRem
      rw [if_neg (show ¬ (remLoop p ({} : RemState)).exn = true from
            fun hh => by rw [hexn] at hh; exact Bool.noConfusion hh)]
      rw [if_neg (show ¬ (("--message" : String) = "--time" ∨ ("--message" : String) = "-t") from by decide)]
      rw [if_pos (show ("--message" : String) = "--message" ∨ ("--message" : String) = "-m" from Or.inl rfl)]
      rw [simpleValueStep_nil, herr] <;> rfl
    · rw [remLoop_append (by decide) p ({} : RemState) (by simp [herr])]
      unfold stepRem
      rw [if_neg (show ¬ (remLoop p ({} : RemState)).exn = true from
            fun hh => by rw [hexn] at hh; exact Bool.noConfusion hh)]
      rw [if_neg (show ¬ (("-m" : String) = "--time" ∨ ("-m" : String) = "-t") from by decide)]
      rw [if_pos (show ("-m" : String) = "--message" ∨ ("-m" : String) = "-m" from Or.inr rfl)]
      rw [simpleValueStep_nil, herr] <;> rfl
  · intro f p hf herr
    rcases hf with rfl | rfl | rfl | rfl | rfl | rfl | rfl | rfl | rfl | rfl | rfl | rfl | rfl | rfl | rfl
    · rw [clipLoop_append (by decide) p ({} : ClipCommand) (by simp [herr]),
          show (stepClip "--url" [] (clipLoop p ({} : ClipCommand))).2
            = { clipLoop p ({} : ClipCommand) with errors :=
                (clipLoop p ({} : ClipCommand)).errors ++ ["--url requires a URL"] } from rfl,
          herr] <;> rfl
    · rw [clipLoop_append (by decide) p ({} : ClipCommand) (by simp [herr]),
          show (stepClip "-u" [] (clipLoop p ({} : ClipCommand))).2
            = { clipLoop p ({} : ClipCommand) with errors :=
                (clipLoop p ({} : ClipCommand)).errors ++ ["--url requires a URL"] } from rfl,
          herr] <;> rfl
    · rw [clipLoop_append (by decide) p ({} : ClipCommand) (by simp [herr]),
          show (stepClip "--start" [] (clipLoop p ({} : ClipCommand))).2
            = { clipLoop p ({} : ClipCommand) with errors :=
                (clipLoop p ({} : ClipCommand)).errors ++ ["--start requires a time value"] } from rfl,
          herr] <;> rfl
    · rw [clipLoop_append (by decide) p ({} : ClipCommand) (by simp [herr]),
          show (stepClip "-s" [] (clipLoop p ({} : ClipCommand))).2
            = { clipLoop p ({} : ClipCommand) with errors :=
                (clipLoop p ({} : ClipCommand)).errors ++ ["--start requires a time value"] } from rfl,
          herr] <;> rfl
    · rw [clipLoop_append (by decide) p ({} : ClipCommand) (by simp [herr]),
          show (stepClip "--end" [] (clipLoop p ({} : ClipCommand))).2
            = { clipLoop p ({} : ClipCommand) with errors :=
                (clipLoop p ({} : ClipCommand)).errors ++ ["--end requires a time value"] } from rfl,
          herr] <;> rfl
    · rw [clipLoop_append (by decide) p ({} : ClipCommand) (by simp [herr]),
          show (stepClip "-e" [] (clipLoop p ({} : ClipCommand))).2
            = { clipLoop p ({} : ClipCommand) with errors :=
                (clipLoop p ({} : ClipCommand)).errors ++ ["--end requires a time value"] } from rfl,
          herr] <;> rfl
    · rw [clipLoop_append (by decide) p ({} : ClipCommand) (by simp [herr]),
          show (stepClip "--resolution" [] (clipLoop p ({} : ClipCommand))).2
            = { clipLoop p ({} : ClipCommand) with errors :=
                (clipLoop p ({} : ClipCommand)).errors ++ ["--resolution requires a value"] } from rfl,
          herr] <;> rfl
    · rw [clipLoop_append (by decide) p ({} : ClipCommand) (by simp [herr]),
          show (stepClip "-r" [] (clipLoop p ({} : ClipCommand))).2
            = { clipLoop p ({} : ClipCommand) with errors :=
                (clipLoop p ({} : ClipCommand)).errors ++ ["--resolution requires a value"] } from rfl,
          herr] <;> rfl
    · rw [clipLoop_append (by decide) p ({} : ClipCommand) (by simp [herr]),
          show (stepClip "--fps" [] (clipLoop p ({} : ClipCommand))).2
            = { clipLoop p ({} : ClipCommand) with errors :=
                (clipLoop p ({} : ClipCommand)).errors ++ ["--fps requires a value"] } from rfl,
          herr] <;> rfl
    · rw [clipLoop_append (by decide) p ({} : ClipCommand) (by simp [herr]),
          show (stepClip "--bitrate" [] (clipLoop p ({} : ClipCommand))).2
            = { clipLoop p ({} : ClipCommand) with errors :=
                (clipLoop p ({} : ClipCommand)).errors ++ ["--bitrate requires a value"] } from rfl,
          herr] <;> rfl
    · rw [clipLoop_append (by decide) p ({} : ClipCommand) (by simp [herr]),
          show (stepClip "-b" [] (clipLoop p ({} : ClipCommand))).2
            = { clipLoop p ({} : ClipCommand) with errors :=
                (clipLoop p ({} : ClipCommand)).errors ++ ["--bitrate requires a value"] } from rfl,
          herr] <;> rfl
    · rw [clipLoop_append (by decide) p ({} : ClipCommand) (by simp [herr]),
          show (stepClip "--format" [] (clipLoop p ({} : ClipCommand))).2
            = { clipLoop p ({} : ClipCommand) with errors :=
                (clipLoop p ({} : ClipCommand)).errors ++ ["--format requires a value"] } from rfl,
          herr] <;> rfl
    · rw [clipLoop_append (by decide) p ({} : ClipCommand) (by simp [herr]),
          show (stepClip "-f" [] (clipLoop p ({} : ClipCommand))).2
            = { clipLoop p ({} : ClipCommand) with errors :=
                (clipLoop p ({} : ClipCommand)).errors ++ ["--format requires a value"] } from rfl,
          herr] <;> rfl
    · rw [clipLoop_append (by decide) p ({} : ClipCommand) (by simp [herr]),
          show (stepClip "--clip" [] (clipLoop p ({} : ClipCommand))).2
            = { clipLoop p ({} : ClipCommand) with errors :=
                (clipLoop p ({} : ClipCommand)).errors ++ ["--clip requires an index"] } from rfl,
          herr] <;> rfl
    · rw [clipLoop_append (by decide) p ({} : ClipCommand) (by simp [herr]),
          show (stepClip "--skip" [] (clipLoop p ({} : ClipCommand))).2
            = { clipLoop p ({} : ClipCommand) with errors :=
                (clipLoop p ({} : ClipCommand)).errors ++ ["--skip requires an index"] } from rfl,
          herr] <;> rfl
  · intro f p hf herr
    have hstep : ∀ g : String, g = "--youtube" ∨ g = "-y" →
        stepMusic g [] (musicLoop p ({} : MusicCommand)) =
          (([] : List String),
           if ((musicLoop p ({} : MusicCommand)).youtube_urls ++ ([] : List String)).isEmpty = true then
             { musicLoop p ({} : MusicCommand) with
               action := some "youtube",
               youtube_urls := (musicLoop p ({} : MusicCommand)).youtube_urls ++ [],
               errors := (musicLoop p ({} : MusicCommand)).errors ++ ["--youtube requires at least one URL"] }
           else
             { musicLoop p ({} : MusicCommand) with
               action := some "youtube",
               youtube_urls := (musicLoop p ({} : MusicCommand)).youtube_urls ++ [] }) := by
      intro g hg
      rcases hg with rfl | rfl <;> rfl
    constructor
    · intro hurls
      rcases hf with rfl | rfl
      · rw [musicLoop_append (by decide) p ({} : MusicCommand) (by simp [herr]),
            hstep "--youtube" (Or.inl rfl),
            if_pos (show ((musicLoop p ({} : MusicCommand)).youtube_urls ++ ([] : List String)).isEmpty = true from by
              rw [hurls]; rfl),
            herr, hurls] <;> simp [hurls]
      · rw [musicLoop_append (by decide) p ({} : MusicCommand) (by simp [herr]),
            hstep "-y" (Or.inr rfl),
            if_pos (show ((musicLoop p ({} : MusicCommand)).youtube_urls ++ ([] : List String)).isEmpty = true from by
              rw [hurls]; rfl),
            herr, hurls] <;> simp [hurls]
    · intro hurls
      rcases hf with rfl | rfl
      · rw [musicLoop_append (by decide) p ({} : MusicCommand) (by simp [herr]),
            hstep "--youtube" (Or.inl rfl),
            if_neg (show ¬ ((musicLoop p ({} : MusicCommand)).youtube_urls ++ ([] : List String)).isEmpty = true from
              fun hh => hurls (by rwa [List.append_nil, List.isEmpty_iff] at hh)),
            List.append_nil] <;> rfl
      · rw [musicLoop_append (by decide) p ({} : MusicCommand) (by simp [herr]),
            hstep "-y" (Or.inr rfl),
            if_neg (show ¬ ((musicLoop p ({} : MusicCommand)).youtube_urls ++ ([] : List String)).isEmpty = true from
              fun hh => hurls (by rwa [List.append_nil, List.isEmpty_iff] at hh)),
            List.append_nil] <;> rfl

/-- C6 witness: the chat conjunct at a concrete error-free prefix
`-s hi` followed by a final `--send`. -/
theorem final_value_flag_behaviour_witness :
    chatLoop (["-s", "hi"] ++ ["--send"]) ({} : ChatCommand) =
      { chatLoop ["-s", "hi"] ({} : ChatCommand) with errors := [chatMissingMsg "--send"] } :=
  final_value_flag_behaviour.1 "--send" ["-s", "hi"] (by decide) (by decide)

/-- `clipIntStep` when the next token is not a valid `int()` literal:
the flag's number error is appended and the value token is left in the
stream (the loop advanced only past the flag itself). -/
theorem clipIntStep_none {C : Type} (v : String) (rest2 : List String)
    (set : Int → C) (errnum errmissing : C) (hpi : pyInt v = none) :
    clipIntStep (v :: rest2) set errnum errmissing = (v :: rest2, errnum) := by
  unfold clipIntStep
  dsimp only
  rw [hpi]

/-- C7 counterexample.  The clip grammar's numeric flags advance only
past the flag on a malformed number, so the offending value token IS
re-processed and yields a second error: `$clip --fps abc` produces both
the number error and an unknown-flag error for `abc`. -/
theorem clip_fps_reprocesses_value :
    (parse_clip_command "$clip --fps abc").errors =
      ["--fps requires a number", "Unknown flag: abc"] ∧
    (parse_clip_command "$clip --fps abc").fps = none := by
  decide

/-- C7 amended.  On a malformed numeric value the reminder grammar's
`--time`/`-t` appends its number error, leaves `minutes` unset and
advances past the offending value token(s) without re-processing them;
the clip grammar's `--fps`, `--clip` and `--skip` append their number
error and leave the numeric field unset, but advance only past the flag
itself, so the offending value token is re-processed by the loop (and,
when it is not itself a clip flag, additionally reported as an unknown
flag). -/
theorem numeric_failure_behaviour :
    (∀ (t v w : String) (ws rest : List String) (st : RemState),
      t = "--time" ∨ t = "-t" → st.exn = false →
      isFlagLike v = false → v ≠ "" → stopsRun rest = true →
      pySplitWs v = w :: ws → pyFloatValid w = false →
      remLoop (t :: v :: rest) st =
        remLoop rest { st with errors := st.errors ++ ["--time requires a number"] }) ∧
    (∀ (v : String) (rest : List String) (cmd : ClipCommand), pyInt v = none →
      clipLoop ("--fps" :: v :: rest) cmd =
        clipLoop (v :: rest) { cmd with errors := cmd.errors ++ ["--fps requires a number"] } ∧
      clipLoop ("--clip" :: v :: rest) cmd =
        clipLoop (v :: rest) { cmd with errors := cmd.errors ++ ["--clip requires a number"] } ∧
      clipLoop ("--skip" :: v :: rest) cmd =
        clipLoop (v :: rest) { cmd with errors := cmd.errors ++ ["--skip requires a number"] }) ∧
    (∀ (v : String) (rest : List String) (cmd : ClipCommand),
      pyInt v = none → clipFlagOf v = ClipFlag.unknown →
      clipLoop ("--fps" :: v :: rest) cmd =
        clipLoop rest { cmd with errors :=
          cmd.errors ++ ["--fps requires a number", "Unknown flag: " ++ v] }) := by
  refine ⟨?_, ?_, ?_⟩
  · intro t v w ws rest st ht hexn hfl hv0 hs hsplit hfw
    rw [remLoop_step]
    have hst : stepRem t (v :: rest) st =
        (rest, { st with errors := st.errors ++ ["--time requires a number"] }) := by
      unfold stepRem
      rw [if_neg (fun hh => by rw [hexn] at hh; exact Bool.noConfusion hh), if_pos ht]
      unfold remTimeStep consumeStep
      rw [consume_value_one v rest hfl hs]
      dsimp only
      rw [if_neg hv0]
      rw [hsplit]
      dsimp only
      rw [if_neg (fun hh => by rw [hfw] at hh; exact Bool.noConfusion hh)] <;> rfl
    rw [hst]
  · intro v rest cmd hpi
    refine ⟨?_, ?_, ?_⟩
    · rw [clipLoop_step,
          show stepClip "--fps" (v :: rest) cmd
            = clipIntStep (v :: rest) (fun n => { cmd with fps := some n })
                { cmd with errors := cmd.errors ++ ["--fps requires a number"] }
                { cmd with errors := cmd.errors ++ ["--fps requires a value"] } from rfl,
          clipIntStep_none v rest _ _ _ hpi]
    · rw [clipLoop_step,
          show stepClip "--clip" (v :: rest) cmd
            = clipIntStep (v :: rest) (fun n => { cmd with clip_index := some (n - 1) })
                { cmd with errors := cmd.errors ++ ["--clip requires a number"] }
                { cmd with errors := cmd.errors ++ ["--clip requires an index"] } from rfl,
          clipIntStep_none v rest _ _ _ hpi]
    · rw [clipLoop_step,
          show stepClip "--skip" (v :: rest) cmd
            = clipIntStep (v :: rest) (fun n => { cmd with skip_indices := cmd.skip_indices ++ [n - 1] })
                { cmd with errors := cmd.errors ++ ["--skip requires a number"] }
                { cmd with errors := cmd.errors ++ ["--skip requires an index"] } from rfl,
          clipIntStep_none v rest _ _ _ hpi]
  · intro v rest cmd hpi hunk
    rw [clipLoop_step,
        show stepClip "--fps" (v :: rest) cmd
          = clipIntStep (v :: rest) (fun n => { cmd with fps := some n })
              { cmd with errors := cmd.errors ++ ["--fps requires a number"] }
              { cmd with errors := cmd.errors ++ ["--fps requires a value"] } from rfl,
        clipIntStep_none v rest _ _ _ hpi]
    show clipLoop (v :: rest) { cmd with errors := cmd.errors ++ ["--fps requires a number"] } = _
    rw [clipLoop_step]
    have hst : stepClip v rest { cmd with errors := cmd.errors ++ ["--fps requires a number"] } =
        (rest, { cmd with errors :=
          (cmd.errors ++ ["--fps requires a number"]) ++ ["Unknown flag: " ++ v] }) := by
      unfold stepClip
      rw [hunk]
    rw [hst, List.append_assoc]
    rfl

/-- C7 witness: concrete instances of both loop equations. -/
theorem numeric_failure_behaviour_witness :
    remLoop ["--time", "soon"] ({} : RemState) =
      remLoop [] { ({} : RemState) with errors :=
        ({} : RemState).errors ++ ["--time requires a number"] } ∧
    clipLoop ["--fps", "abc"] ({} : ClipCommand) =
      clipLoop ["abc"] { ({} : ClipCommand) with errors :=
        ({} : ClipCommand).errors ++ ["--fps requires a number"] } :=
  ⟨numeric_failure_behaviour.1 "--time" "soon" "soon" [] [] {} (Or.inl rfl)
      (by decide) (by decide) (by decide) (by decide) (by decide) (by decide),
   (numeric_failure_behaviour.2.1 "abc" [] {} (by decide)).1⟩

/-- C8 failing evaluation.  The documented `-p set <words...>` success
path is unreachable: the first value consumption swallows the prompt
text together with the `set` keyword, so `$chat -p set hello -s hi`
yields the error `Invalid prompt action: set hello` with both prompt
fields unset (while `--send` is still applied); and even when the
consumed value is exactly `set`, the chained second consumption starts
at a flag or at the end of input, so it yields
`--prompt set requires prompt text`. -/
theorem prompt_set_failing_eval :
    parse_chat_command "$chat -p set hello -s hi" =
      { message := some "hi", errors := ["Invalid prompt action: set hello"] } ∧
    parse_chat_command "$chat -p set -s hi" =
      { message := some "hi", errors := ["--prompt set requires prompt text"] } := by
  decide

/-- C9.  Every `ChatCommand` returned by `parse_chat_command` has
`has_action = true`: when the token loop set no field, `show_status` is
forced before returning, even when errors were accumulated. -/
theorem chat_always_has_action (s : String) :
    (parse_chat_command s).has_action = true := by
  unfold parse_chat_command
  dsimp only
  split_ifs <;> first | decide | assumption | simp [ChatCommand.has_action]

/-- C10.  `--listen` followed by a value that lower-cases to neither
`on` nor `off` appends the listen error but advances only past the flag,
so the value token is re-processed and reported as an unknown flag; the
pair yields exactly these two errors and `listen_mode` stays as it was. -/
theorem listen_invalid_two_errors (cmd : ChatCommand) (v : String) (rest : List String)
    (hfl : isFlagLike v = false) (hon : pyLower v ≠ "on") (hoff : pyLower v ≠ "off")
    (hs : stopsRun rest = true) :
    chatLoop ("--listen" :: v :: rest) cmd =
      chatLoop rest { cmd with errors :=
        cmd.errors ++ ["--listen requires 'on' or 'off'", "Unknown flag: " ++ v] } := by
  rw [chatLoop_step,
      show stepChat "--listen" (v :: rest) cmd = chatListenStep (v :: rest) cmd from rfl]
  have h2 : chatListenStep (v :: rest) cmd =
      (v :: rest, { cmd with errors :=
        cmd.errors ++ ["--listen requires 'on' or 'off'"] }) := by
    unfold chatListenStep
    rw [consume_value_one v rest hfl hs]
    dsimp only
    rw [if_neg (fun hh => hh.2.elim hon hoff)]
  rw [h2]
  dsimp only
  rw [chatLoop_step, stepChat_unknown v rest _ hfl]
  dsimp only
  rw [List.append_assoc] <;> rfl

/-- C10 witness: `--listen maybe` at the initial command. -/
theorem listen_invalid_two_errors_witness :
    chatLoop ["--listen", "maybe"] ({} : ChatCommand) =
      chatLoop [] { ({} : ChatCommand) with errors :=
        ({} : ChatCommand).errors ++
          ["--listen requires 'on' or 'off'", "Unknown flag: " ++ "maybe"] } :=
  listen_invalid_two_errors {} "maybe" [] (by decide) (by decide) (by decide) (by decide)

end CommandParsers
